import Mathlib

/-!
Verification development for the basicdb library.

This file gives a shallow embedding of the library's components and proves
behavioural properties about them:

* the extra-field codec (src/basicdb/utils.py), modelled at the level of the
  msgpack data model (the msgpack wire library itself is an external boundary;
  its byte encoding is a bijection between byte strings and the trees below,
  so packed payloads are represented by their trees);
* the entity attribute semantics (src/basicdb/entities.py);
* the SQL storage adapter (src/basicdb/sql_adapter.py), with the database
  tables modelled as lists of rows and each session-scoped transaction
  modelled as an `Except` computation that yields the committed state on
  success and leaves the state untouched on failure;
* the BasicDB facade (src/basicdb/basicdb.py), instrumented with a counter of
  storage-adapter calls so that "fails before any storage-adapter call" is a
  provable statement.
-/

/-- Modelled from the spec: the repository's exceptions module (the error
taxonomy of spec section 4.3: IntegrityError, NamespaceError, DeletionError,
ObjectNotFoundError) is not present under src/, only its callers are.  The
remaining constructors stand for the Python built-in errors raised directly
by the code under src/ (TypeError from the codec's default hook, KeyError
from dictionary lookups, ValueError and AssertionError from argument
validation). -/
inductive Err where
  | integrityError
  | namespaceError
  | deletionError
  | objectNotFoundError
  | typeError
  | assertionError
  | keyError
  | valueError
  | attributeError
  deriving DecidableEq, Repr

mutual
/-- The msgpack data model: the abstract syntax of the wire format used by
pack_extra / unpack_extra.  An `ext` node carries an extension type code and
its payload; in the byte format the payload is the byte string obtained by
packing one value, so it is represented here by that value's tree. -/
inductive Msg where
  | nil : Msg
  | bool (b : Bool) : Msg
  | int (n : Int) : Msg
  | float64 (bits : Nat) : Msg
  | str (s : String) : Msg
  | bin (bs : List Nat) : Msg
  | array (xs : MsgList) : Msg
  | map (kvs : MsgPairs) : Msg
  | ext (code : Int) (data : Msg) : Msg

/-- A sequence of msgpack values (the elements of an array). -/
inductive MsgList where
  | nil : MsgList
  | cons (hd : Msg) (tl : MsgList) : MsgList

/-- A sequence of msgpack key/value pairs (the entries of a map). -/
inductive MsgPairs where
  | nil : MsgPairs
  | cons (k v : Msg) (tl : MsgPairs) : MsgPairs
end

mutual
/-- A Python value, as dispatched on by the codec.  Dispatch in the source is
by exact type (strict_types=True), so values of distinct exact types get
distinct constructors even when structurally similar: a named-tuple instance
and a dataclass instance are not tuples or dicts.  Floats are carried by
their 64-bit IEEE-754 bit pattern (msgpack stores exactly those 8 bytes).
`extType` is msgpack.ExtType, produced by the unpacker for unknown extension
codes. -/
inductive PyValue where
  | int (n : Int) : PyValue
  | float (bits : Nat) : PyValue
  | bool (b : Bool) : PyValue
  | bytes (bs : List Nat) : PyValue
  | str (s : String) : PyValue
  | none : PyValue
  | list (xs : PyList) : PyValue
  | tuple (xs : PyList) : PyValue
  | dict (kvs : PyPairs) : PyValue
  | namedtupleInst (typename : String) (fields : PyPairs) : PyValue
  | dataclassInst (typename : String) (fields : PyPairs) : PyValue
  | extType (code : Int) (data : Msg) : PyValue

/-- A sequence of Python values (the elements of a list or tuple). -/
inductive PyList where
  | nil : PyList
  | cons (hd : PyValue) (tl : PyList) : PyList

/-- A sequence of Python key/value pairs (the entries of a dict). -/
inductive PyPairs where
  | nil : PyPairs
  | cons (k v : PyValue) (tl : PyPairs) : PyPairs
end

mutual
/-- utils.pack_extra: msgpack.packb(extra, default=default, strict_types=True,
use_bin_type=True).  strict_types makes the packer dispatch on the exact type,
so tuples (and any other non-native exact type, e.g. named tuples and
dataclass instances) are passed to the default hook; the hook's dispatch is
inlined in the last three cases here and restated as `default` below. -/
def pack_extra : PyValue → Except Err Msg
  | .int n => .ok (.int n)
  | .float bits => .ok (.float64 bits)
  | .bool b => .ok (.bool b)
  | .bytes bs => .ok (.bin bs)
  | .str s => .ok (.str s)
  | .none => .ok .nil
  | .list xs =>
      match pack_list xs with
      | .ok ms => .ok (.array ms)
      | .error e => .error e
  | .dict kvs =>
      match pack_pairs kvs with
      | .ok ms => .ok (.map ms)
      | .error e => .error e
  | .extType c d => .ok (.ext c d)
  | .tuple xs =>
      match pack_list xs with
      | .ok ms => .ok (.ext 10 (.array ms))
      | .error e => .error e
  | .namedtupleInst _ _ => .error .typeError
  | .dataclassInst _ _ => .error .typeError

/-- Packs the elements of a list/tuple in order. -/
def pack_list : PyList → Except Err MsgList
  | .nil => .ok .nil
  | .cons hd tl =>
      match pack_extra hd with
      | .ok m =>
          match pack_list tl with
          | .ok ms => .ok (.cons m ms)
          | .error e => .error e
      | .error e => .error e

/-- Packs the entries of a dict in order. -/
def pack_pairs : PyPairs → Except Err MsgPairs
  | .nil => .ok .nil
  | .cons k v tl =>
      match pack_extra k with
      | .ok mk =>
          match pack_extra v with
          | .ok mv =>
              match pack_pairs tl with
              | .ok ms => .ok (.cons mk mv ms)
              | .error e => .error e
          | .error e => .error e
      | .error e => .error e
end

/-- utils.default: the fallback hook handed to msgpack.packb.  An exact tuple
is encoded as ExtType(10, pack_extra(list(obj))); every other value reaching
the hook raises TypeError. -/
def utils.default (obj : PyValue) : Except Err Msg :=
  match obj with
  | .tuple xs =>
      match pack_extra (.list xs) with
      | .ok m => .ok (.ext 10 m)
      | .error e => .error e
  | _ => .error .typeError

mutual
/-- utils.unpack_extra: msgpack.unpackb(extra_bytes, ext_hook=ext_hook,
strict_map_key=False).  The ext_hook dispatch is inlined in the `ext` case
and restated as `ext_hook` below: extension code 10 is unpacked recursively
and converted to a tuple (the source applies the tuple constructor to the
unpacked value, which must be a sequence; a non-sequence payload, impossible
for packer output, fails); any other code is passed through as
msgpack.ExtType. -/
def unpack_extra : Msg → Except Err PyValue
  | .nil => .ok .none
  | .bool b => .ok (.bool b)
  | .int n => .ok (.int n)
  | .float64 bits => .ok (.float bits)
  | .str s => .ok (.str s)
  | .bin bs => .ok (.bytes bs)
  | .array ms =>
      match unpack_list ms with
      | .ok xs => .ok (.list xs)
      | .error e => .error e
  | .map kvs =>
      match unpack_pairs kvs with
      | .ok ps => .ok (.dict ps)
      | .error e => .error e
  | .ext code data =>
      if code = 10 then
        match unpack_extra data with
        | .ok (.list xs) => .ok (.tuple xs)
        | .ok _ => .error .typeError
        | .error e => .error e
      else .ok (.extType code data)

/-- Unpacks the elements of an array in order. -/
def unpack_list : MsgList → Except Err PyList
  | .nil => .ok .nil
  | .cons hd tl =>
      match unpack_extra hd with
      | .ok v =>
          match unpack_list tl with
          | .ok vs => .ok (.cons v vs)
          | .error e => .error e
      | .error e => .error e

/-- Unpacks the entries of a map in order. -/
def unpack_pairs : MsgPairs → Except Err PyPairs
  | .nil => .ok .nil
  | .cons k v tl =>
      match unpack_extra k with
      | .ok pk =>
          match unpack_extra v with
          | .ok pv =>
              match unpack_pairs tl with
              | .ok ps => .ok (.cons pk pv ps)
              | .error e => .error e
          | .error e => .error e
      | .error e => .error e
end

/-- The two dispatches agree: pack_extra on a tuple is exactly what the
default hook produces for it. -/
theorem pack_extra_tuple_eq_default (xs : PyList) :
    pack_extra (.tuple xs) = utils.default (.tuple xs) := by
  simp only [pack_extra, utils.default]
  cases hp : pack_list xs <;> simp [hp]

mutual
/-- The supported kinds of the round-trip law: values built purely from
integers, floats, booleans, byte strings, text strings, the absent value,
lists, tuples and mappings (arbitrarily nested). -/
def supportedVal : PyValue → Bool
  | .int _ => true
  | .float _ => true
  | .bool _ => true
  | .bytes _ => true
  | .str _ => true
  | .none => true
  | .list xs => supported_list xs
  | .tuple xs => supported_list xs
  | .dict kvs => supported_pairs kvs
  | .namedtupleInst _ _ => false
  | .dataclassInst _ _ => false
  | .extType _ _ => false

/-- All members of a sequence are supported. -/
def supported_list : PyList → Bool
  | .nil => true
  | .cons hd tl => supportedVal hd && supported_list tl

/-- All keys and values of a mapping are supported. -/
def supported_pairs : PyPairs → Bool
  | .nil => true
  | .cons k v tl => supportedVal k && supportedVal v && supported_pairs tl
end

mutual
/-- Round trip for one supported value. -/
theorem unpack_pack (v : PyValue) (h : supportedVal v = true) :
    (pack_extra v).bind unpack_extra = Except.ok v := by
  cases v with
  | int n => rfl
  | float bits => rfl
  | bool b => rfl
  | bytes bs => rfl
  | str s => rfl
  | none => rfl
  | list xs =>
      have ih := unpack_pack_list xs (by simpa [supportedVal] using h)
      cases hp : pack_list xs with
      | ok ms =>
          rw [hp] at ih
          have hu : unpack_list ms = Except.ok xs := by simpa [Except.bind] using ih
          simp [pack_extra, hp, unpack_extra, hu, Except.bind]
      | error e => rw [hp] at ih; simp [Except.bind] at ih
  | tuple xs =>
      have ih := unpack_pack_list xs (by simpa [supportedVal] using h)
      cases hp : pack_list xs with
      | ok ms =>
          rw [hp] at ih
          have hu : unpack_list ms = Except.ok xs := by simpa [Except.bind] using ih
          simp [pack_extra, hp, unpack_extra, hu, Except.bind]
      | error e => rw [hp] at ih; simp [Except.bind] at ih
  | dict kvs =>
      have ih := unpack_pack_pairs kvs (by simpa [supportedVal] using h)
      cases hp : pack_pairs kvs with
      | ok ms =>
          rw [hp] at ih
          have hu : unpack_pairs ms = Except.ok kvs := by simpa [Except.bind] using ih
          simp [pack_extra, hp, unpack_extra, hu, Except.bind]
      | error e => rw [hp] at ih; simp [Except.bind] at ih
  | namedtupleInst t fs => simp [supportedVal] at h
  | dataclassInst t fs => simp [supportedVal] at h
  | extType c d => simp [supportedVal] at h

/-- Round trip for a supported sequence: packing the elements and unpacking
them gives back the same elements. -/
theorem unpack_pack_list (xs : PyList) (h : supported_list xs = true) :
    (pack_list xs).bind unpack_list = Except.ok xs := by
  cases xs with
  | nil => rfl
  | cons hd tl =>
      have hsp := h
      simp only [supported_list, Bool.and_eq_true] at hsp
      obtain ⟨hh, ht⟩ := hsp
      have ihh := unpack_pack hd hh
      have iht := unpack_pack_list tl ht
      cases hph : pack_extra hd with
      | ok m =>
          rw [hph] at ihh
          have huh : unpack_extra m = Except.ok hd := by simpa [Except.bind] using ihh
          cases hpt : pack_list tl with
          | ok ms =>
              rw [hpt] at iht
              have hut : unpack_list ms = Except.ok tl := by simpa [Except.bind] using iht
              simp [pack_list, hph, hpt, unpack_list, huh, hut, Except.bind]
          | error e => rw [hpt] at iht; simp [Except.bind] at iht
      | error e => rw [hph] at ihh; simp [Except.bind] at ihh

/-- Round trip for a supported mapping. -/
theorem unpack_pack_pairs (kvs : PyPairs) (h : supported_pairs kvs = true) :
    (pack_pairs kvs).bind unpack_pairs = Except.ok kvs := by
  cases kvs with
  | nil => rfl
  | cons k v tl =>
      have hsp := h
      simp only [supported_pairs, Bool.and_eq_true] at hsp
      obtain ⟨⟨hk, hv⟩, ht⟩ := hsp
      have ihk := unpack_pack k hk
      have ihv := unpack_pack v hv
      have iht := unpack_pack_pairs tl ht
      cases hpk : pack_extra k with
      | ok mk =>
          rw [hpk] at ihk
          have huk : unpack_extra mk = Except.ok k := by simpa [Except.bind] using ihk
          cases hpv : pack_extra v with
          | ok mv =>
              rw [hpv] at ihv
              have huv : unpack_extra mv = Except.ok v := by simpa [Except.bind] using ihv
              cases hpt : pack_pairs tl with
              | ok ms =>
                  rw [hpt] at iht
                  have hut : unpack_pairs ms = Except.ok tl := by
                    simpa [Except.bind] using iht
                  simp [pack_pairs, hpk, hpv, hpt, unpack_pairs, huk, huv, hut,
                    Except.bind]
              | error e => rw [hpt] at iht; simp [Except.bind] at iht
          | error e => rw [hpv] at ihv; simp [Except.bind] at ihv
      | error e => rw [hpk] at ihk; simp [Except.bind] at ihk
end

/-- C3: for every value built purely from the supported primitive and
container kinds (integers, floats, booleans, byte strings, text strings,
the absent value, lists, tuples and mappings, arbitrarily nested),
unpack_extra(pack_extra(v)) == v, and a tuple is encoded through extension
code 10 and decoded back as a tuple, not as a list. -/
theorem extra_codec_roundtrip :
    (∀ v : PyValue, supportedVal v = true →
        (pack_extra v).bind unpack_extra = Except.ok v)
  ∧ (∀ xs : PyList, supported_list xs = true →
      ∃ ms : MsgList,
        pack_extra (PyValue.tuple xs) = Except.ok (Msg.ext 10 (Msg.array ms))
          ∧ unpack_extra (Msg.ext 10 (Msg.array ms)) =
              Except.ok (PyValue.tuple xs)) := by
  constructor
  · exact unpack_pack
  · intro xs h
    cases hp : pack_list xs with
    | ok ms =>
        have ih := unpack_pack_list xs h
        rw [hp] at ih
        have hu : unpack_list ms = Except.ok xs := by simpa [Except.bind] using ih
        refine ⟨ms, ?_, ?_⟩
        · simp [pack_extra, hp]
        · simp [unpack_extra, hu]
    | error e =>
        have ih := unpack_pack_list xs h
        rw [hp] at ih
        simp [Except.bind] at ih

/-- The inner list [2, 3, (-1, -5)] of the test value. -/
def pyTestInner : PyList :=
  .cons (.int 2) (.cons (.int 3)
    (.cons (.tuple (.cons (.int (-1)) (.cons (.int (-5)) .nil))) .nil))

/-- The test suite's nested value (0, 1, [2, 3, (-1, -5)]). -/
def pyTestValue : PyValue :=
  .tuple (.cons (.int 0) (.cons (.int 1) (.cons (.list pyTestInner) .nil)))

theorem extra_codec_roundtrip_witness :
    (pack_extra pyTestValue).bind unpack_extra = Except.ok pyTestValue
  ∧ (∃ ms : MsgList,
      pack_extra (PyValue.tuple pyTestInner) =
          Except.ok (Msg.ext 10 (Msg.array ms))
        ∧ unpack_extra (Msg.ext 10 (Msg.array ms)) =
            Except.ok (PyValue.tuple pyTestInner)) :=
  ⟨extra_codec_roundtrip.1 pyTestValue (by rfl),
   extra_codec_roundtrip.2 pyTestInner (by rfl)⟩

/-- C4: packing a value whose exact type is not among the supported
primitive/container kinds and not exactly the plain tuple type — in
particular a dataclass instance or a named-tuple instance — fails with
TypeError, while an exact tuple with the same (supported) elements packs
successfully: dispatch is by exact type, never by structural duck-typing. -/
theorem pack_extra_exact_type_dispatch :
    (∀ (typename : String) (fields : PyPairs),
        pack_extra (PyValue.dataclassInst typename fields) =
          Except.error Err.typeError)
  ∧ (∀ (typename : String) (fields : PyPairs),
        pack_extra (PyValue.namedtupleInst typename fields) =
          Except.error Err.typeError)
  ∧ (∀ xs : PyList, supported_list xs = true →
        ∃ m : Msg, pack_extra (PyValue.tuple xs) = Except.ok m) := by
  refine ⟨fun _ _ => rfl, fun _ _ => rfl, fun xs h => ?_⟩
  cases hp : pack_list xs with
  | ok ms => exact ⟨.ext 10 (.array ms), by simp [pack_extra, hp]⟩
  | error e =>
      have ih := unpack_pack_list xs h
      rw [hp] at ih
      simp [Except.bind] at ih

theorem pack_extra_exact_type_dispatch_witness :
    pack_extra (PyValue.dataclassInst ("Tmp")
        (.cons (.str ("a")) (.int 0) (.cons (.str ("b")) (.float 4607182418800017408) .nil))) =
      Except.error Err.typeError
  ∧ pack_extra (PyValue.namedtupleInst ("Tmp2")
        (.cons (.str ("x")) (.int 0) (.cons (.str ("y")) (.int 1) .nil))) =
      Except.error Err.typeError
  ∧ (∃ m : Msg,
      pack_extra (PyValue.tuple (.cons (.int 0) (.cons (.int 1) .nil))) =
        Except.ok m) :=
  ⟨pack_extra_exact_type_dispatch.1 ("Tmp")
      (.cons (.str ("a")) (.int 0) (.cons (.str ("b")) (.float 4607182418800017408) .nil)),
   pack_extra_exact_type_dispatch.2.1 ("Tmp2")
      (.cons (.str ("x")) (.int 0) (.cons (.str ("y")) (.int 1) .nil)),
   pack_extra_exact_type_dispatch.2.2 (.cons (.int 0) (.cons (.int 1) .nil)) (by rfl)⟩

mutual
/-- Structural equality on msgpack trees (used only through pyBeq). -/
def msgBeq : Msg → Msg → Bool
  | .nil, .nil => true
  | .bool a, .bool b => a == b
  | .int a, .int b => a == b
  | .float64 a, .float64 b => a == b
  | .str a, .str b => a == b
  | .bin a, .bin b => a == b
  | .array a, .array b => msgListBeq a b
  | .map a, .map b => msgPairsBeq a b
  | .ext c d, .ext e f => c == e && msgBeq d f
  | _, _ => false

/-- Elementwise msgBeq on sequences. -/
def msgListBeq : MsgList → MsgList → Bool
  | .nil, .nil => true
  | .cons a as, .cons b bs => msgBeq a b && msgListBeq as bs
  | _, _ => false

/-- Elementwise msgBeq on pair sequences. -/
def msgPairsBeq : MsgPairs → MsgPairs → Bool
  | .nil, .nil => true
  | .cons ka va as, .cons kb vb bs => msgBeq ka kb && msgBeq va vb && msgPairsBeq as bs
  | _, _ => false
end

mutual
/-- Structural equality on Python values, modelling the == used by dict key
lookup.  (Python's cross-type numeric equality, e.g. 1 == 1.0, is not
modelled; no property proved here depends on it.) -/
def pyBeq : PyValue → PyValue → Bool
  | .int a, .int b => a == b
  | .float a, .float b => a == b
  | .bool a, .bool b => a == b
  | .bytes a, .bytes b => a == b
  | .str a, .str b => a == b
  | .none, .none => true
  | .list a, .list b => pyListBeq a b
  | .tuple a, .tuple b => pyListBeq a b
  | .dict a, .dict b => pyPairsBeq a b
  | .namedtupleInst n a, .namedtupleInst m b => n == m && pyPairsBeq a b
  | .dataclassInst n a, .dataclassInst m b => n == m && pyPairsBeq a b
  | .extType c d, .extType e f => c == e && msgBeq d f
  | _, _ => false

/-- Elementwise pyBeq on sequences. -/
def pyListBeq : PyList → PyList → Bool
  | .nil, .nil => true
  | .cons a as, .cons b bs => pyBeq a b && pyListBeq as bs
  | _, _ => false

/-- Elementwise pyBeq on pair sequences. -/
def pyPairsBeq : PyPairs → PyPairs → Bool
  | .nil, .nil => true
  | .cons ka va as, .cons kb vb bs => pyBeq ka kb && pyBeq va vb && pyPairsBeq as bs
  | _, _ => false
end

/-- Looks a key up in a Python dict; KeyError when absent. -/
def pyDictLookup : PyPairs → PyValue → Except Err PyValue
  | .nil, _ => .error .keyError
  | .cons k v tl, key => if pyBeq k key then .ok v else pyDictLookup tl key

/-- Sets a key in a Python dict: an existing key keeps its position, a new
key is appended (Python dicts preserve insertion order). -/
def pyDictSet : PyPairs → PyValue → PyValue → PyPairs
  | .nil, key, v => .cons key v .nil
  | .cons k w tl, key, v =>
      if pyBeq k key then .cons k v tl else .cons k w (pyDictSet tl key v)

/-- A Python instance attribute dictionary (the __dict__ of a dataclass
instance): attribute names mapped to values, in assignment order. -/
abbrev AttrDict := List (String × PyValue)

/-- Looks an attribute name up in an instance dictionary. -/
def attrLookup : AttrDict → String → Option PyValue
  | [], _ => Option.none
  | (k, v) :: tl, key => if k == key then some v else attrLookup tl key

/-- object.__setattr__ on the instance dictionary: an existing name keeps
its position, a new name is appended. -/
def attrSet : AttrDict → String → PyValue → AttrDict
  | [], key, v => [(key, v)]
  | (k, w) :: tl, key, v =>
      if k == key then (k, v) :: tl else (k, w) :: attrSet tl key v

namespace entities

/-- The declared dataclass fields of entities.Object, in declaration order
(the private _initialized flag is declared separately right after them). -/
def Object.fields : List String :=
  ["uuid", "namespace", "name", "type_", "subtype", "creation_time",
   "modification_time", "hidden", "username", "extra"]

/-- The declared dataclass fields of entities.Blob. -/
def Blob.fields : List String :=
  ["uuid", "parent", "name", "type_", "size", "creation_time",
   "modification_time", "hidden", "username", "serialization", "extra"]

/-- The instance dictionary of a freshly constructed entities.Object: the
generated __init__ assigns every declared field in order (each assignment
takes the not-yet-initialized branch of __setattr__, including the
_initialized = False default), and __post_init__ then sets
_initialized = True in place. -/
def Object.mk_entity (uuid nspace name type_v subtype creation_time
    modification_time hidden username extra : PyValue) : AttrDict :=
  [("uuid", uuid), ("namespace", nspace), ("name", name), ("type_", type_v),
   ("subtype", subtype), ("creation_time", creation_time),
   ("modification_time", modification_time), ("hidden", hidden),
   ("username", username), ("extra", extra), ("_initialized", .bool true)]

/-- The instance dictionary of a freshly constructed entities.Blob. -/
def Blob.mk_entity (uuid parent name type_v size creation_time
    modification_time hidden username serialization extra : PyValue) : AttrDict :=
  [("uuid", uuid), ("parent", parent), ("name", name), ("type_", type_v),
   ("size", size), ("creation_time", creation_time),
   ("modification_time", modification_time), ("hidden", hidden),
   ("username", username), ("serialization", serialization),
   ("extra", extra), ("_initialized", .bool true)]

/-- __getitem__ (textually identical on Object and Blob):
`return self.extra[key]`.  An entity always has the extra attribute; were it
missing, the attribute read would recurse through __getattr__ forever, which
is mapped to an error here. -/
def getitem (self : AttrDict) (key : PyValue) : Except Err PyValue :=
  match attrLookup self ("extra") with
  | some (.dict kvs) => pyDictLookup kvs key
  | some _ => .error .typeError
  | Option.none => .error .attributeError

/-- __setitem__ (textually identical on Object and Blob):
`self.extra[key] = value`. -/
def setitem (self : AttrDict) (key v : PyValue) : Except Err AttrDict :=
  match attrLookup self ("extra") with
  | some (.dict kvs) => .ok (attrSet self ("extra") (.dict (pyDictSet kvs key v)))
  | some _ => .error .typeError
  | Option.none => .error .attributeError

/-- Attribute read obj.key: Python looks the name up in the instance
dictionary first; only when that fails is __getattr__ invoked, whose body is
`return self.extra[key]`. -/
def getattr (self : AttrDict) (key : String) : Except Err PyValue :=
  match attrLookup self key with
  | some v => .ok v
  | Option.none => getitem self (.str key)

/-- Reads the _initialized flag the way `not self._initialized` sees it
(entities only ever store a boolean there). -/
def isInitialized (self : AttrDict) : Bool :=
  match attrLookup self ("_initialized") with
  | some (.bool b) => b
  | _ => false

/-- __setattr__ (textually identical on Object and Blob): before
initialization completes, or when the name is already in the instance
dictionary, assign the attribute itself; otherwise route into
`self.extra[key] = value`. -/
def setattr (self : AttrDict) (key : String) (v : PyValue) : Except Err AttrDict :=
  if !isInitialized self || (attrLookup self key).isSome then
    .ok (attrSet self key v)
  else
    setitem self (.str key) v

end entities

/-- attrLookup misses every name that is not among the stored keys. -/
theorem attrLookup_eq_none (l : AttrDict) (key : String)
    (h : key ∉ l.map Prod.fst) : attrLookup l key = Option.none := by
  induction l with
  | nil => rfl
  | cons hd tl ih =>
      simp only [List.map_cons, List.mem_cons] at h
      push_neg at h
      obtain ⟨h1, h2⟩ := h
      obtain ⟨k, v⟩ := hd
      have : (k == key) = false := by
        simp only [beq_eq_false_iff_ne]
        exact fun hk => h1 hk.symm
      simp [attrLookup, this, ih h2]

/-- C8: on an Object or Blob entity instance, for every key that is not one
of the declared fields, index access obj[key] and attribute access obj.key
both read extra[key]; attribute access for a key absent from extra fails
with KeyError; and assigning such an attribute writes into extra (the
instance dictionary keeps exactly the declared fields, so no new declared
field is created). -/
theorem entity_extra_routing :
    (∀ (u ns nm ty sub ct mt hd un v : PyValue) (kvs : PyPairs) (key : String),
      key ∉ entities.Object.fields → key ≠ "_initialized" →
        entities.getitem
            (entities.Object.mk_entity u ns nm ty sub ct mt hd un (.dict kvs))
            (.str key) = pyDictLookup kvs (.str key)
      ∧ entities.getattr
            (entities.Object.mk_entity u ns nm ty sub ct mt hd un (.dict kvs))
            key = pyDictLookup kvs (.str key)
      ∧ (pyDictLookup kvs (.str key) = Except.error Err.keyError →
          entities.getattr
              (entities.Object.mk_entity u ns nm ty sub ct mt hd un (.dict kvs))
              key = Except.error Err.keyError)
      ∧ entities.setattr
            (entities.Object.mk_entity u ns nm ty sub ct mt hd un (.dict kvs))
            key v =
          Except.ok (entities.Object.mk_entity u ns nm ty sub ct mt hd un
            (.dict (pyDictSet kvs (.str key) v))))
  ∧ (∀ (u pa nm ty sz ct mt hd un se v : PyValue) (kvs : PyPairs) (key : String),
      key ∉ entities.Blob.fields → key ≠ "_initialized" →
        entities.getitem
            (entities.Blob.mk_entity u pa nm ty sz ct mt hd un se (.dict kvs))
            (.str key) = pyDictLookup kvs (.str key)
      ∧ entities.getattr
            (entities.Blob.mk_entity u pa nm ty sz ct mt hd un se (.dict kvs))
            key = pyDictLookup kvs (.str key)
      ∧ (pyDictLookup kvs (.str key) = Except.error Err.keyError →
          entities.getattr
              (entities.Blob.mk_entity u pa nm ty sz ct mt hd un se (.dict kvs))
              key = Except.error Err.keyError)
      ∧ entities.setattr
            (entities.Blob.mk_entity u pa nm ty sz ct mt hd un se (.dict kvs))
            key v =
          Except.ok (entities.Blob.mk_entity u pa nm ty sz ct mt hd un se
            (.dict (pyDictSet kvs (.str key) v)))) := by
  constructor
  · intro u ns nm ty sub ct mt hd un v kvs key h1 h2
    have hk : key ∉ (entities.Object.mk_entity u ns nm ty sub ct mt hd un
        (PyValue.dict kvs)).map Prod.fst := by
      intro hmem
      simp [entities.Object.mk_entity] at hmem
      simp [entities.Object.fields] at h1
      push_neg at h1
      tauto
    have hnone := attrLookup_eq_none _ key hk
    have hinit : entities.isInitialized (entities.Object.mk_entity u ns nm ty
        sub ct mt hd un (PyValue.dict kvs)) = true := rfl
    have hga : entities.getattr (entities.Object.mk_entity u ns nm ty sub ct
        mt hd un (PyValue.dict kvs)) key = pyDictLookup kvs (.str key) := by
      unfold entities.getattr
      rw [hnone]
      rfl
    refine ⟨rfl, hga, fun habs => by rw [hga, habs], ?_⟩
    simp [entities.setattr, hnone, hinit]
    rfl
  · intro u pa nm ty sz ct mt hd un se v kvs key h1 h2
    have hk : key ∉ (entities.Blob.mk_entity u pa nm ty sz ct mt hd un se
        (PyValue.dict kvs)).map Prod.fst := by
      intro hmem
      simp [entities.Blob.mk_entity] at hmem
      simp [entities.Blob.fields] at h1
      push_neg at h1
      tauto
    have hnone := attrLookup_eq_none _ key hk
    have hinit : entities.isInitialized (entities.Blob.mk_entity u pa nm ty sz
        ct mt hd un se (PyValue.dict kvs)) = true := rfl
    have hga : entities.getattr (entities.Blob.mk_entity u pa nm ty sz ct mt
        hd un se (PyValue.dict kvs)) key = pyDictLookup kvs (.str key) := by
      unfold entities.getattr
      rw [hnone]
      rfl
    refine ⟨rfl, hga, fun habs => by rw [hga, habs], ?_⟩
    simp [entities.setattr, hnone, hinit]
    rfl

theorem entity_extra_routing_witness :
    (entities.getitem
        (entities.Object.mk_entity (.int 1) .none (.str ("o1")) .none .none
          (.int 0) .none (.bool false) .none
          (.dict (.cons (.str ("foo")) (.int 7) .nil)))
        (.str ("foo")) = pyDictLookup (.cons (.str ("foo")) (.int 7) .nil) (.str ("foo"))
      ∧ entities.getattr
          (entities.Object.mk_entity (.int 1) .none (.str ("o1")) .none .none
            (.int 0) .none (.bool false) .none
            (.dict (.cons (.str ("foo")) (.int 7) .nil)))
          ("foo") = pyDictLookup (.cons (.str ("foo")) (.int 7) .nil) (.str ("foo"))
      ∧ (pyDictLookup (.cons (.str ("foo")) (.int 7) .nil) (.str ("foo")) =
            Except.error Err.keyError →
          entities.getattr
            (entities.Object.mk_entity (.int 1) .none (.str ("o1")) .none .none
              (.int 0) .none (.bool false) .none
              (.dict (.cons (.str ("foo")) (.int 7) .nil)))
            ("foo") = Except.error Err.keyError)
      ∧ entities.setattr
          (entities.Object.mk_entity (.int 1) .none (.str ("o1")) .none .none
            (.int 0) .none (.bool false) .none
            (.dict (.cons (.str ("foo")) (.int 7) .nil)))
          ("foo") (.int 9) =
        Except.ok (entities.Object.mk_entity (.int 1) .none (.str ("o1")) .none
          .none (.int 0) .none (.bool false) .none
          (.dict (pyDictSet (.cons (.str ("foo")) (.int 7) .nil)
            (.str ("foo")) (.int 9)))))
  ∧ (entities.getitem
        (entities.Blob.mk_entity (.int 2) (.int 1) .none .none (.int 3)
          (.int 0) .none (.bool false) .none .none (.dict .nil))
        (.str ("bar")) = pyDictLookup .nil (.str ("bar"))
      ∧ entities.getattr
          (entities.Blob.mk_entity (.int 2) (.int 1) .none .none (.int 3)
            (.int 0) .none (.bool false) .none .none (.dict .nil))
          ("bar") = pyDictLookup .nil (.str ("bar"))
      ∧ (pyDictLookup .nil (.str ("bar")) = Except.error Err.keyError →
          entities.getattr
            (entities.Blob.mk_entity (.int 2) (.int 1) .none .none (.int 3)
              (.int 0) .none (.bool false) .none .none (.dict .nil))
            ("bar") = Except.error Err.keyError)
      ∧ entities.setattr
          (entities.Blob.mk_entity (.int 2) (.int 1) .none .none (.int 3)
            (.int 0) .none (.bool false) .none .none (.dict .nil))
          ("bar") (.int 9) =
        Except.ok (entities.Blob.mk_entity (.int 2) (.int 1) .none .none
          (.int 3) (.int 0) .none (.bool false) .none .none
          (.dict (pyDictSet .nil (.str ("bar")) (.int 9))))) :=
  ⟨entity_extra_routing.1 (.int 1) .none (.str ("o1")) .none .none (.int 0)
      .none (.bool false) .none (.int 9)
      (.cons (.str ("foo")) (.int 7) .nil) ("foo") (by decide) (by decide),
   entity_extra_routing.2 (.int 2) (.int 1) .none .none (.int 3) (.int 0)
      .none (.bool false) .none .none (.int 9) .nil ("bar")
      (by decide) (by decide)⟩

/-- Object identifiers: uuid4 values, modelled as naturals (generation is
modelled by the next_uuid counter of the database state). -/
abbrev UUID := Nat

/-- An identifier-shaped argument: either a canonical uuid or a textual
name; get_object_from_identifier dispatches on which one it received.  A
name entry inside a uuid list filter matches no uuid column value, exactly
as in SQL. -/
inductive Ident where
  | uuid (u : UUID) : Ident
  | name (s : String) : Ident
  deriving DecidableEq, Repr

/-- A row of the objects table (sql_adapter.Object).  `nspace` is the
namespace column (that word is reserved in Lean).  extra_data holds the
packed extension payload. -/
structure DBObject where
  uuid : UUID
  nspace : Option String
  name : String
  type_ : Option String
  subtype : Option String
  creation_time : Nat
  modification_time : Option Nat
  hidden : Bool
  username : Option String
  extra_data : Msg

/-- A row of the blobs table (sql_adapter.Blob). -/
structure DBBlob where
  uuid : UUID
  parent : UUID
  name : Option String
  type_ : Option String
  size : Nat
  creation_time : Nat
  modification_time : Option Nat
  hidden : Bool
  username : Option String
  serialization : Option String
  extra_data : Msg

/-- A row of the relationships table (sql_adapter.Relationship); its
to_public copies exactly these fields, so the row doubles as the public
entity. -/
structure DBRelationship where
  uuid : UUID
  first : UUID
  second : UUID
  type_ : Option String
  hidden : Bool
  deriving DecidableEq, Repr

/-- The relational database state: one list of rows per table, plus the
counter standing in for uuid4 generation. -/
structure DBState where
  objects : List DBObject
  blobs : List DBBlob
  relationships : List DBRelationship
  next_uuid : UUID

/-- entities.Object as produced by Object.to_public: the row fields with the
extension payload unpacked. -/
structure PubObject where
  uuid : UUID
  nspace : Option String
  name : String
  type_ : Option String
  subtype : Option String
  creation_time : Nat
  modification_time : Option Nat
  hidden : Bool
  username : Option String
  extra : PyValue

/-- entities.Blob as produced by Blob.to_public. -/
structure PubBlob where
  uuid : UUID
  parent : UUID
  name : Option String
  type_ : Option String
  size : Nat
  creation_time : Nat
  modification_time : Option Nat
  hidden : Bool
  username : Option String
  serialization : Option String
  extra : PyValue

/-- sql_adapter.Object.to_public: copies the columns and unpacks extra_data
(the timezone decoration on the timestamps has no content here, times being
opaque numbers). -/
def DBObject.to_public (o : DBObject) : Except Err PubObject :=
  match unpack_extra o.extra_data with
  | .ok e => .ok ⟨o.uuid, o.nspace, o.name, o.type_, o.subtype, o.creation_time,
      o.modification_time, o.hidden, o.username, e⟩
  | .error er => .error er

/-- sql_adapter.Blob.to_public. -/
def DBBlob.to_public (b : DBBlob) : Except Err PubBlob :=
  match unpack_extra b.extra_data with
  | .ok e => .ok ⟨b.uuid, b.parent, b.name, b.type_, b.size, b.creation_time,
      b.modification_time, b.hidden, b.username, b.serialization, e⟩
  | .error er => .error er

/-- A relationship type_ filter argument: get_relationships accepts a single
string or a list of strings. -/
inductive StrOrList where
  | one (s : String) : StrOrList
  | many (ss : List String) : StrOrList
  deriving DecidableEq, Repr

/-- The result shape of get_object: a singular query yields one optional
row, anything else a list. -/
inductive ObjResult where
  | one (o : Option DBObject) : ObjResult
  | many (os : List DBObject) : ObjResult

/-- The result shape of get_relationships. -/
inductive RelResult where
  | one (r : Option DBRelationship) : RelResult
  | many (rs : List DBRelationship) : RelResult

/-- The result shape of get_blobs: a match_name or uuid lookup yields one
optional row, an object-list lookup a mapping from parent uuid to rows, and
anything else a list. -/
inductive BlobsResult where
  | one (b : Option DBBlob) : BlobsResult
  | many (bs : List DBBlob) : BlobsResult
  | grouped (g : List (UUID × List DBBlob)) : BlobsResult

/-- The filter list built by SQLAdapter.get_object, as one predicate over a
row: hidden (unless include_hidden), uuid, uuids (SQL in_ against a list of
identifier values), name, names, the namespace filter (appended when
filter_namespace is set or an explicit namespace value was given; SQLAlchemy
renders == None as IS NULL, which Option equality models), type_, subtype,
and the relationship-endpoint uuid set appended by the relationship branch. -/
def objPred (include_hidden : Bool) (uuid : Option UUID)
    (uuids : Option (List Ident)) (name : Option String)
    (names : Option (List String)) (nsFilter : Bool) (nspace : Option String)
    (type_ : Option String) (subtype : Option String)
    (relUuids : Option (List UUID)) (o : DBObject) : Bool :=
  (include_hidden || o.hidden == false)
  && (match uuid with | some u => o.uuid == u | Option.none => true)
  && (match uuids with
      | some l => l.contains (Ident.uuid o.uuid)
      | Option.none => true)
  && (match name with | some s => o.name == s | Option.none => true)
  && (match names with | some l => l.contains o.name | Option.none => true)
  && (!nsFilter || o.nspace == nspace)
  && (match type_ with | some t => o.type_ == some t | Option.none => true)
  && (match subtype with | some t => o.subtype == some t | Option.none => true)
  && (match relUuids with | some l => l.contains o.uuid | Option.none => true)

/-- The tail of get_object: assertExists demands a nonempty result, a
singular query additionally asserts at most one row and yields it (or
nothing). -/
def finishObjectQuery (res : List DBObject) (assertExists singular_query : Bool) :
    Except Err ObjResult :=
  if assertExists && res.isEmpty then .error .assertionError
  else if singular_query then
    match res with
    | [] => .ok (.one Option.none)
    | [o] => .ok (.one (some o))
    | _ => .error .assertionError
  else .ok (.many res)

/-- SQLAdapter.get_object restricted to absent relationship filters — the
form in which every internal caller (get_object_from_identifier, the
namespace post-filters, result refetches) uses it.  The full entry point
with the relationship branch is SQLAdapter.get_object below. -/
def SQLAdapter.get_object_plain (st : DBState) (uuid : Option UUID)
    (uuids : Option (List Ident)) (nspace : Option String)
    (name : Option String) (names : Option (List String))
    (type_ : Option String) (subtype : Option String) (include_hidden : Bool)
    (assertExists : Bool) (filter_namespace : Bool) : Except Err ObjResult :=
  let singular_query := uuid.isSome || (name.isSome && filter_namespace)
  let nsFilter := filter_namespace || nspace.isSome
  finishObjectQuery
    (st.objects.filter
      (objPred include_hidden uuid uuids name names nsFilter nspace type_
        subtype Option.none))
    assertExists singular_query

/-- Extracts the singular result shape; the callers below only make singular
queries, so the list shape cannot arise and is mapped to an assertion
failure. -/
def asSingleObject : Except Err ObjResult → Except Err (Option DBObject)
  | .ok (.one o) => .ok o
  | .ok (.many _) => .error .assertionError
  | .error e => .error e

/-- SQLAdapter.get_object_from_identifier: a uuid is looked up directly
(namespace-checked only when asked); anything else is treated as a name and
looked up with the namespace filter always on. -/
def SQLAdapter.get_object_from_identifier (st : DBState) (uuid_or_name : Ident)
    (check_namespace : Bool) (nspace : Option String) (include_hidden : Bool)
    (assertExists : Bool) : Except Err (Option DBObject) :=
  match uuid_or_name with
  | .uuid u =>
      asSingleObject (SQLAdapter.get_object_plain st (some u) Option.none
        nspace Option.none Option.none Option.none Option.none include_hidden
        assertExists check_namespace)
  | .name s =>
      asSingleObject (SQLAdapter.get_object_plain st Option.none Option.none
        nspace (some s) Option.none Option.none Option.none include_hidden
        assertExists true)

/-- The relationship type_ filter: a list filters by SQL in_ (which a NULL
type_ never matches), a single string by equality. -/
def relTypePred (type_ : Option StrOrList) (r : DBRelationship) : Bool :=
  match type_ with
  | Option.none => true
  | some (.one s) => r.type_ == some s
  | some (.many ss) =>
      match r.type_ with
      | some t => ss.contains t
      | Option.none => false

/-- The application-side namespace post-filter of relationship queries with
no endpoint filter: resolve the distinct first-endpoint uuids inside the
given namespace and keep the relationships whose first endpoint was found;
a first endpoint missing from the resulting mapping raises KeyError. -/
def relNamespacePost (st : DBState) (cur : List DBRelationship)
    (nspace : Option String) (include_hidden : Bool) :
    Except Err (List DBRelationship) :=
  let objs_uuids := (cur.map (fun r => r.first)).eraseDups
  match SQLAdapter.get_object_plain st Option.none
      (some (objs_uuids.map Ident.uuid)) nspace Option.none Option.none
      Option.none Option.none include_hidden false true with
  | .error e => .error e
  | .ok (.one _) => .error .assertionError
  | .ok (.many tmp_objs) =>
      let namespace_by_first_uuid := tmp_objs.map (fun o => (o.uuid, o.nspace))
      let rec keep : List DBRelationship → Except Err (List DBRelationship)
        | [] => .ok []
        | r :: tl =>
            match List.lookup r.first namespace_by_first_uuid with
            | Option.none => .error .keyError
            | some v =>
                match keep tl with
                | .error e => .error e
                | .ok rest =>
                    .ok (if v == nspace then r :: rest else rest)
      keep cur

/-- SQLAdapter.get_relationships. -/
def SQLAdapter.get_relationships (st : DBState) (uuid : Option UUID)
    (uuids : Option (List Ident)) (first : Option Ident)
    (second : Option Ident) (type_ : Option StrOrList)
    (nspace : Option String) (filter_namespace : Bool) (include_hidden : Bool)
    (assertExists : Bool) : Except Err RelResult :=
  if uuid.isNone && uuids.isNone then
    let finish := fun (res : List DBRelationship) =>
      if first.isSome && second.isSome && type_.isSome then
        if assertExists && !(res.length == 1) then
          Except.error Err.assertionError
        else
          match res with
          | [r] => Except.ok (RelResult.one (some r))
          | _ => Except.ok (RelResult.one Option.none)
      else
        if assertExists && res.isEmpty then Except.error Err.assertionError
        else Except.ok (RelResult.many res)
    let baseOk := fun (r : DBRelationship) =>
      (include_hidden || r.hidden == false) && relTypePred type_ r
    match first with
    | some fi =>
        match SQLAdapter.get_object_from_identifier st fi filter_namespace
            nspace include_hidden false with
        | .error e => .error e
        | .ok Option.none => finish []
        | .ok (some fo) =>
            match second with
            | some se =>
                match SQLAdapter.get_object_from_identifier st se
                    filter_namespace nspace include_hidden false with
                | .error e => .error e
                | .ok Option.none => finish []
                | .ok (some so) =>
                    finish (st.relationships.filter (fun r =>
                      baseOk r && r.first == fo.uuid && r.second == so.uuid))
            | Option.none =>
                finish (st.relationships.filter (fun r =>
                  baseOk r && r.first == fo.uuid))
    | Option.none =>
        match second with
        | some se =>
            match SQLAdapter.get_object_from_identifier st se filter_namespace
                nspace include_hidden false with
            | .error e => .error e
            | .ok Option.none => finish []
            | .ok (some so) =>
                finish (st.relationships.filter (fun r =>
                  baseOk r && r.second == so.uuid))
        | Option.none =>
            let cur := st.relationships.filter baseOk
            if filter_namespace then
              match relNamespacePost st cur nspace include_hidden with
              | .error e => .error e
              | .ok res2 => finish res2
            else finish cur
  else
    if uuid.isSome && uuids.isSome then .error .assertionError
    else if first.isSome || second.isSome then .error .assertionError
    else if type_.isSome then .error .assertionError
    else
      let cur := st.relationships.filter (fun r =>
        (match uuid with | some u => r.uuid == u | Option.none => true)
        && (match uuids with
            | some l => l.contains (Ident.uuid r.uuid)
            | Option.none => true)
        && (include_hidden || r.hidden == false))
      match (if filter_namespace then
          relNamespacePost st cur nspace include_hidden
        else .ok cur) with
      | .error e => .error e
      | .ok cur2 =>
          if uuid.isNone then
            if assertExists && cur2.isEmpty then .error .assertionError
            else .ok (.many cur2)
          else
            if assertExists && !(cur2.length == 1) then .error .assertionError
            else
              match cur2 with
              | [r] => .ok (.one (some r))
              | _ => .ok (.one Option.none)

/-- SQLAdapter.get_object, the full entry point: the relationship filters
are resolved first (the matching visible relationships are collected and
their opposite endpoints, deduplicated, become an extra uuid filter on the
object query), then the filters run and the result shape is produced. -/
def SQLAdapter.get_object (st : DBState) (uuid : Option UUID)
    (uuids : Option (List Ident)) (nspace : Option String)
    (name : Option String) (names : Option (List String))
    (type_ : Option String) (subtype : Option String) (include_hidden : Bool)
    (relationship_first : Option Ident) (relationship_second : Option Ident)
    (relationship_type : Option StrOrList) (assertExists : Bool)
    (filter_namespace : Bool) : Except Err ObjResult :=
  if relationship_type.isSome
      && !(relationship_first.isSome || relationship_second.isSome) then
    .error .assertionError
  else if relationship_first.isSome && relationship_second.isSome then
    .error .assertionError
  else
    let singular_query := uuid.isSome || (name.isSome && filter_namespace)
    let nsFilter := filter_namespace || nspace.isSome
    if relationship_first.isSome || relationship_second.isSome then
      match SQLAdapter.get_relationships st Option.none Option.none
          relationship_first relationship_second relationship_type nspace
          false include_hidden false with
      | .error e => .error e
      | .ok (.one _) => .error .assertionError
      | .ok (.many rels) =>
          let rel_other_uuids :=
            if relationship_first.isSome then
              (rels.map (fun r => r.second)).eraseDups
            else (rels.map (fun r => r.first)).eraseDups
          finishObjectQuery
            (st.objects.filter
              (objPred include_hidden uuid uuids name names nsFilter nspace
                type_ subtype (some rel_other_uuids)))
            assertExists singular_query
    else
      finishObjectQuery
        (st.objects.filter
          (objPred include_hidden uuid uuids name names nsFilter nspace type_
            subtype Option.none))
        assertExists singular_query

/-- Byte length of the msgpack encoding of an integer (smallest encoding:
fixint, then 8/16/32/64-bit; integers beyond the 64-bit range are not
encodable by the format and are given the 9-byte size, a case no property
here relies on). -/
def intPackedSize (n : Int) : Nat :=
  if 0 ≤ n then
    if n < 128 then 1
    else if n < 256 then 2
    else if n < 65536 then 3
    else if n < 4294967296 then 5
    else 9
  else
    if -32 ≤ n then 1
    else if -128 ≤ n then 2
    else if -32768 ≤ n then 3
    else if -2147483648 ≤ n then 5
    else 9

/-- Header length of a str encoding for a body of b bytes. -/
def strHeaderSize (b : Nat) : Nat :=
  if b < 32 then 1 else if b < 256 then 2 else if b < 65536 then 3 else 5

/-- Header length of a bin encoding. -/
def binHeaderSize (l : Nat) : Nat :=
  if l < 256 then 2 else if l < 65536 then 3 else 5

/-- Header length of an array/map encoding for n elements. -/
def seqHeaderSize (n : Nat) : Nat :=
  if n < 16 then 1 else if n < 65536 then 3 else 5

/-- Header length of an ext encoding for a payload of L bytes (fixext for
the exact sizes 1/2/4/8/16). -/
def extHeaderSize (l : Nat) : Nat :=
  if l == 1 || l == 2 || l == 4 || l == 8 || l == 16 then 2
  else if l < 256 then 3
  else if l < 65536 then 4
  else 6

/-- Number of elements of a msgpack array. -/
def msgListLen : MsgList → Nat
  | .nil => 0
  | .cons _ tl => 1 + msgListLen tl

/-- Number of entries of a msgpack map. -/
def msgPairsLen : MsgPairs → Nat
  | .nil => 0
  | .cons _ _ tl => 1 + msgPairsLen tl

mutual
/-- Byte length of the msgpack encoding of a value — len(extra_data) for a
packed payload. -/
def msgSize : Msg → Nat
  | .nil => 1
  | .bool _ => 1
  | .int n => intPackedSize n
  | .float64 _ => 9
  | .str s => strHeaderSize s.utf8ByteSize + s.utf8ByteSize
  | .bin bs => binHeaderSize bs.length + bs.length
  | .array xs => seqHeaderSize (msgListLen xs) + msgListSize xs
  | .map kvs => seqHeaderSize (msgPairsLen kvs) + msgPairsSize kvs
  | .ext _ d => extHeaderSize (msgSize d) + msgSize d

/-- Total byte length of the encodings of array elements. -/
def msgListSize : MsgList → Nat
  | .nil => 0
  | .cons hd tl => msgSize hd + msgListSize tl

/-- Total byte length of the encodings of map entries. -/
def msgPairsSize : MsgPairs → Nat
  | .nil => 0
  | .cons k v tl => msgSize k + msgSize v + msgPairsSize tl
end

/-- The two partial unique indexes of the objects table plus its primary
key, as one invariant: no two distinct rows share a uuid, and no two share a
name within the same namespace value (each namespace, and the absent
namespace, being an independent scope). -/
def objectIndexOk : List DBObject → Bool
  | [] => true
  | o :: tl =>
      tl.all (fun p =>
        !(p.uuid == o.uuid) && !(p.nspace == o.nspace && p.name == o.name))
      && objectIndexOk tl

/-- The two partial unique indexes of the blobs table plus its primary key:
no two distinct rows share a uuid, and no two share a name (including the
absent name) under the same parent. -/
def blobIndexOk : List DBBlob → Bool
  | [] => true
  | b :: tl =>
      tl.all (fun p =>
        !(p.uuid == b.uuid) && !(p.parent == b.parent && p.name == b.name))
      && blobIndexOk tl

/-- SQLAdapter.insert_object: build the row (name defaulting to the textual
form of the fresh uuid, hidden False, no modification time), commit it —
a uniqueness violation surfaces as IntegrityError — and refetch it when a
result is requested. -/
def SQLAdapter.insert_object (st : DBState) (nspace : Option String)
    (name : Option String) (type_ : Option String) (subtype : Option String)
    (username : Option String) (extra_data : Msg) (return_result : Bool)
    (now : Nat) : Except Err (Option DBObject × DBState) :=
  let new_uuid := st.next_uuid
  let name' := match name with | Option.none => toString new_uuid | some s => s
  let new_obj : DBObject :=
    ⟨new_uuid, nspace, name', type_, subtype, now, Option.none, false,
      username, extra_data⟩
  let objects' := st.objects ++ [new_obj]
  if !objectIndexOk objects' then .error .integrityError
  else
    let st' : DBState :=
      { st with objects := objects', next_uuid := st.next_uuid + 1 }
    if return_result then
      match asSingleObject (SQLAdapter.get_object_plain st' (some new_uuid)
          Option.none Option.none Option.none Option.none Option.none
          Option.none false true false) with
      | .error e => .error e
      | .ok o => .ok (o, st')
    else .ok (Option.none, st')

/-- The update_kwargs dict received by SQLAdapter.update_object: an outer
some means the keyword is present (for the nullable columns the inner value
may itself be absent, i.e. set the column to NULL). -/
structure ObjectUpdateKwargs where
  new_name : Option String
  type_ : Option (Option String)
  subtype : Option (Option String)
  nspace : Option (Option String)
  hidden : Option Bool
  username : Option (Option String)
  extra_data : Option Msg

/-- The keyword loop of SQLAdapter.update_object: assign each present
keyword to its column, then stamp modification_time. -/
def applyObjectUpdate (o : DBObject) (k : ObjectUpdateKwargs) (now : Nat) :
    DBObject :=
  let o1 := match k.new_name with | some v => { o with name := v } | Option.none => o
  let o2 := match k.hidden with | some v => { o1 with hidden := v } | Option.none => o1
  let o3 := match k.username with | some v => { o2 with username := v } | Option.none => o2
  let o4 := match k.extra_data with | some v => { o3 with extra_data := v } | Option.none => o3
  let o5 := match k.type_ with | some v => { o4 with type_ := v } | Option.none => o4
  let o6 := match k.subtype with | some v => { o5 with subtype := v } | Option.none => o5
  let o7 := match k.nspace with | some v => { o6 with nspace := v } | Option.none => o6
  { o7 with modification_time := some now }

/-- SQLAdapter.update_object: resolve the target (hidden rows included,
namespace-checked when the facade has a fixed namespace, and it must exist),
apply the keyword assignments, stamp modification_time, and commit — a
uniqueness violation on commit surfaces as IntegrityError.  The uuid column
is the primary key, so the updated row replaces the row with that uuid. -/
def SQLAdapter.update_object (st : DBState) (object_identifier : Ident)
    (update_kwargs : ObjectUpdateKwargs) (nspace : Option String) (now : Nat) :
    Except Err DBState :=
  match SQLAdapter.get_object_from_identifier st object_identifier
      nspace.isSome nspace true true with
  | .error e => .error e
  | .ok Option.none => .error .assertionError
  | .ok (some cur_obj) =>
      let objects' := st.objects.map (fun o =>
        if o.uuid == cur_obj.uuid then applyObjectUpdate o update_kwargs now
        else o)
      if !objectIndexOk objects' then .error .integrityError
      else .ok { st with objects := objects' }

/-- The object_identifier argument of get_blobs: a single identifier or a
list of object uuids. -/
inductive ObjsArg where
  | single (i : Ident) : ObjsArg
  | listOf (us : List UUID) : ObjsArg
  deriving DecidableEq, Repr

/-- One step of the per-parent grouping dict: append the row to its parent's
bucket, creating the bucket at the end on first sight. -/
def groupAdd (g : List (UUID × List DBBlob)) (b : DBBlob) :
    List (UUID × List DBBlob) :=
  match g with
  | [] => [(b.parent, [b])]
  | (u, bs) :: tl =>
      if u == b.parent then (u, bs ++ [b]) :: tl else (u, bs) :: groupAdd tl b

/-- Groups blob rows by parent uuid, preserving first-appearance order of
parents and row order within each bucket (the res_by_parent_uuid loop). -/
def groupByParent (bs : List DBBlob) : List (UUID × List DBBlob) :=
  bs.foldl groupAdd []

/-- The namespace consistency check of the uuid-keyed get_blobs branch:
resolve the distinct parents inside the namespace and demand that all were
found. -/
def checkBlobParentsNamespace (st : DBState) (cur_res : List DBBlob)
    (namespace_to_check : Option String) (include_hidden : Bool) :
    Except Err Unit :=
  let objs_uuids := (cur_res.map (fun b => b.parent)).eraseDups
  match SQLAdapter.get_object_plain st Option.none
      (some (objs_uuids.map Ident.uuid)) namespace_to_check Option.none
      Option.none Option.none Option.none include_hidden false true with
  | .error e => .error e
  | .ok (.one _) => .error .assertionError
  | .ok (.many tmp_objs) =>
      if objs_uuids.length == tmp_objs.length then .ok ()
      else .error .assertionError

/-- SQLAdapter.get_blobs, all three lookup shapes: by owning object (the
object must resolve, else ObjectNotFoundError; match_name narrows to one
optional row), by list of owning objects (every listed object must resolve;
rows grouped by parent — a listed object without rows gets no entry), and by
blob uuid(s) (optionally namespace-checking the parents). -/
def SQLAdapter.get_blobs (st : DBState) (object_identifier : Option ObjsArg)
    (match_name : Bool) (name : Option String) (uuid : Option UUID)
    (uuids : Option (List Ident)) (include_hidden : Bool)
    (check_namespace : Bool) (namespace_to_check : Option String)
    (assertExists : Bool) : Except Err BlobsResult :=
  match object_identifier with
  | some oid =>
      if uuid.isSome || uuids.isSome then .error .assertionError
      else
        match oid with
        | .listOf objIds =>
            if assertExists || match_name || name.isSome then
              .error .assertionError
            else
              match SQLAdapter.get_object_plain st Option.none
                  (some (objIds.map Ident.uuid)) namespace_to_check
                  Option.none Option.none Option.none Option.none
                  include_hidden false check_namespace with
              | .error e => .error e
              | .ok (.one _) => .error .assertionError
              | .ok (.many cur_objs) =>
                  if !(cur_objs.length == objIds.length) then
                    .error .assertionError
                  else
                    let inner_res := st.blobs.filter (fun b =>
                      objIds.contains b.parent
                      && (include_hidden || b.hidden == false))
                    .ok (.grouped (groupByParent inner_res))
        | .single i =>
            match SQLAdapter.get_object_from_identifier st i check_namespace
                namespace_to_check include_hidden false with
            | .error e => .error e
            | .ok Option.none => .error .objectNotFoundError
            | .ok (some cur_obj) =>
                let res := st.blobs.filter (fun b =>
                  b.parent == cur_obj.uuid
                  && (include_hidden || b.hidden == false)
                  && (!match_name || b.name == name))
                if match_name then
                  match res with
                  | [] =>
                      if assertExists then .error .assertionError
                      else .ok (.one Option.none)
                  | [b] => .ok (.one (some b))
                  | _ => .error .assertionError
                else .ok (.many res)
  | Option.none =>
      if uuid.isNone && uuids.isNone then .error .assertionError
      else if uuid.isSome && uuids.isSome then .error .assertionError
      else
        let res0 := st.blobs.filter (fun b =>
          (match uuid with | some u => b.uuid == u | Option.none => true)
          && (match uuids with
              | some l => l.contains (Ident.uuid b.uuid)
              | Option.none => true)
          && (include_hidden || b.hidden == false))
        match (if check_namespace then
            checkBlobParentsNamespace st res0 namespace_to_check include_hidden
          else .ok ()) with
        | .error e => .error e
        | .ok () =>
            if uuid.isSome then
              if assertExists && !(res0.length == 1) then
                .error .assertionError
              else
                match res0 with
                | [b] => .ok (.one (some b))
                | _ => .ok (.one Option.none)
            else
              if assertExists && res0.isEmpty then .error .assertionError
              else .ok (.many res0)

/-- The dependency checks of a hard delete, one object at a time: blobs
(hidden included), then relationships with the object as first endpoint,
then as second — any nonzero count raises DeletionError.  Each check opens
its own session, so it reads the state as of the start of the deleting
transaction. -/
def hardDeleteChecks (st : DBState) : List DBObject → Except Err Unit
  | [] => .ok ()
  | obj :: tl =>
      match SQLAdapter.get_blobs st (some (.single (.uuid obj.uuid))) false
          Option.none Option.none Option.none true false Option.none false with
      | .error e => .error e
      | .ok (.many bs) =>
          if !bs.isEmpty then .error .deletionError
          else
            match SQLAdapter.get_relationships st Option.none Option.none
                (some (.uuid obj.uuid)) Option.none Option.none Option.none
                false true false with
            | .error e => .error e
            | .ok (.many rs1) =>
                if !rs1.isEmpty then .error .deletionError
                else
                  match SQLAdapter.get_relationships st Option.none
                      Option.none Option.none (some (.uuid obj.uuid))
                      Option.none Option.none false true false with
                  | .error e => .error e
                  | .ok (.many rs2) =>
                      if !rs2.isEmpty then .error .deletionError
                      else hardDeleteChecks st tl
                  | .ok (.one _) => .error .assertionError
            | .ok (.one _) => .error .assertionError
      | .ok _ => .error .assertionError

/-- SQLAdapter.delete_objects: fetch the targets (hidden included,
namespace-checked for a namespace-fixed store) and demand all were found;
soft deletion marks each row hidden and stamps modification_time; hard
deletion first runs the dependency checks — any failure aborts the whole
transaction, leaving every row untouched — and then removes the rows.  The
uuid column is the primary key, so rows are matched by uuid. -/
def SQLAdapter.delete_objects (st : DBState) (uuids : List Ident)
    (hide_only : Bool) (check_namespace : Bool)
    (namespace_to_check : Option String) (now : Nat) : Except Err DBState :=
  match SQLAdapter.get_object_plain st Option.none (some uuids)
      namespace_to_check Option.none Option.none Option.none Option.none true
      false check_namespace with
  | .error e => .error e
  | .ok (.one _) => .error .assertionError
  | .ok (.many objs) =>
      if !(objs.length == uuids.length) then .error .assertionError
      else if hide_only then
        .ok { st with objects := st.objects.map (fun o =>
          if objs.any (fun p => p.uuid == o.uuid) then
            { o with hidden := true, modification_time := some now }
          else o) }
      else
        match hardDeleteChecks st objs with
        | .error e => .error e
        | .ok () =>
            .ok { st with objects := st.objects.filter (fun o =>
              !(objs.any (fun p => p.uuid == o.uuid))) }

/-- SQLAdapter.insert_blob: resolve the owning object (namespace-checked on
a namespace-fixed store; it must exist), build the row (hidden False, no
modification time), commit it — a uniqueness violation surfaces as
IntegrityError — and refetch it when a result is requested. -/
def SQLAdapter.insert_blob (st : DBState) (object_identifier : Ident)
    (name : Option String) (type_ : Option String) (username : Option String)
    (extra_data : Msg) (serialization : Option String) (size : Nat)
    (return_result : Bool) (check_namespace : Bool)
    (namespace_to_check : Option String) (now : Nat) :
    Except Err (Option DBBlob × DBState) :=
  let new_uuid := st.next_uuid
  match SQLAdapter.get_object_from_identifier st object_identifier
      check_namespace namespace_to_check false false with
  | .error e => .error e
  | .ok Option.none => .error .assertionError
  | .ok (some obj) =>
      let new_blob : DBBlob :=
        ⟨new_uuid, obj.uuid, name, type_, size, now, Option.none, false,
          username, serialization, extra_data⟩
      let blobs' := st.blobs ++ [new_blob]
      if !blobIndexOk blobs' then .error .integrityError
      else
        let st' : DBState :=
          { st with blobs := blobs', next_uuid := st.next_uuid + 1 }
        if return_result then
          match SQLAdapter.get_blobs st' Option.none false Option.none
              (some new_uuid) Option.none false false Option.none true with
          | .error e => .error e
          | .ok (.one b) => .ok (b, st')
          | .ok _ => .error .assertionError
        else .ok (Option.none, st')

/-- The update_kwargs dict received by SQLAdapter.update_blob. -/
structure BlobUpdateKwargs where
  new_name : Option (Option String)
  hidden : Option Bool
  serialization : Option (Option String)
  size : Option Nat
  username : Option (Option String)
  extra_data : Option Msg
  type_ : Option (Option String)

/-- The keyword loop of SQLAdapter.update_blob. -/
def applyBlobUpdate (b : DBBlob) (k : BlobUpdateKwargs) (now : Nat) : DBBlob :=
  let b1 := match k.new_name with | some v => { b with name := v } | Option.none => b
  let b2 := match k.hidden with | some v => { b1 with hidden := v } | Option.none => b1
  let b3 := match k.serialization with | some v => { b2 with serialization := v } | Option.none => b2
  let b4 := match k.size with | some v => { b3 with size := v } | Option.none => b3
  let b5 := match k.username with | some v => { b4 with username := v } | Option.none => b4
  let b6 := match k.extra_data with | some v => { b5 with extra_data := v } | Option.none => b5
  let b7 := match k.type_ with | some v => { b6 with type_ := v } | Option.none => b6
  { b7 with modification_time := some now }

/-- SQLAdapter.update_blob: resolve the target row through get_blobs (by
owner and name, or by uuid; hidden included; it must exist), apply the
keyword assignments, stamp modification_time, commit — a uniqueness
violation surfaces as IntegrityError — and return the row's uuid. -/
def SQLAdapter.update_blob (st : DBState) (object_identifier : Option Ident)
    (name : Option String) (uuid : Option UUID)
    (update_kwargs : BlobUpdateKwargs) (check_namespace : Bool)
    (namespace_to_check : Option String) (now : Nat) :
    Except Err (UUID × DBState) :=
  match SQLAdapter.get_blobs st (object_identifier.map ObjsArg.single) true
      name uuid Option.none true check_namespace namespace_to_check true with
  | .error e => .error e
  | .ok (.one (some cur_blob)) =>
      let blobs' := st.blobs.map (fun b =>
        if b.uuid == cur_blob.uuid then applyBlobUpdate b update_kwargs now
        else b)
      if !blobIndexOk blobs' then .error .integrityError
      else .ok (cur_blob.uuid, { st with blobs := blobs' })
  | .ok _ => .error .assertionError

/-- A physical stash entry: either the raw bytes the caller handed in, or a
pickled Python value (pickle.dumps is modelled as the identity embedding of
the value, which is all its round-trip contract provides). -/
inductive PickleData where
  | raw (bs : List Nat) : PickleData
  | pickled (v : PyValue) : PickleData

/-- A value passed as blob data: raw bytes are stored verbatim with no
serialization tag; anything else is pickled and tagged. -/
inductive BlobData where
  | bytes (bs : List Nat) : BlobData
  | obj (v : PyValue) : BlobData

/-- The full state a BasicDB store acts on: the relational database plus the
blob stash (a key-value byte store). -/
structure FullState where
  db : DBState
  stash : List (String × PickleData)

/-- The outcome of one facade operation: the result or raised error, the
resulting full state (a failing storage transaction is rolled back, so on an
error the state is the one reached before the failing call), and the number
of storage-adapter calls the facade issued. -/
structure FOut (α : Type) where
  result : Except Err α
  state : FullState
  adapter_calls : Nat

/-- The BasicDB store configuration resolved at construction.
stash_key_root is the stash_blob_prefix constructor argument (renamed);
nspace is the fixed namespace. -/
structure BasicDB where
  username : String
  nspace : Option String
  stash_key_root : String
  max_extra_fields_size : Option Nat
  allow_hard_delete : Bool

/-- An object-shaped facade argument: an entities.Object instance, or an
identifier (uuid or name). -/
inductive ObjArg where
  | obj (o : PubObject) : ObjArg
  | ident (i : Ident) : ObjArg

/-- basicdb.uuid_if_object: an Object collapses to its uuid, anything else
passes through unchanged. -/
def uuid_if_object : ObjArg → Ident
  | .obj o => .uuid o.uuid
  | .ident i => i

/-- BasicDB.serialize: pickle.dumps. -/
def BasicDB.serialize (data : PyValue) : PickleData := .pickled data

mutual
/-- Node count of a Python value (used only as a stand-in length for pickled
payloads). -/
def pyNodeCount : PyValue → Nat
  | .int _ => 1
  | .float _ => 1
  | .bool _ => 1
  | .bytes bs => 1 + bs.length
  | .str _ => 1
  | .none => 1
  | .list xs => 1 + pyNodeCountList xs
  | .tuple xs => 1 + pyNodeCountList xs
  | .dict kvs => 1 + pyNodeCountPairs kvs
  | .namedtupleInst _ fs => 1 + pyNodeCountPairs fs
  | .dataclassInst _ fs => 1 + pyNodeCountPairs fs
  | .extType _ _ => 1

/-- Node count of a sequence. -/
def pyNodeCountList : PyList → Nat
  | .nil => 0
  | .cons hd tl => pyNodeCount hd + pyNodeCountList tl

/-- Node count of a pair sequence. -/
def pyNodeCountPairs : PyPairs → Nat
  | .nil => 0
  | .cons k v tl => pyNodeCount k + pyNodeCount v + pyNodeCountPairs tl
end

/-- len(pickle.dumps(data)): the exact byte count is opaque at this level;
only that it is some function of the value matters, so a node count stands
in for it. -/
def pickleLen (v : PyValue) : Nat := pyNodeCount v

/-- BasicDB.deserialize: an absent tag returns the raw bytes, the pickle tag
unpickles; any other tag fails the assertion.  (A tag mismatching the stored
representation cannot arise from states written through this facade and maps
to errors.) -/
def BasicDB.deserialize (bytes : PickleData) (serialization : Option String) :
    Except Err PyValue :=
  match serialization with
  | Option.none =>
      match bytes with
      | .raw bs => .ok (.bytes bs)
      | .pickled _ => .error .typeError
  | some s =>
      if s == "pickle" then
        match bytes with
        | .pickled v => .ok v
        | .raw _ => .error .typeError
      else .error .assertionError

/-- BasicDB.get_blob_key: str(stash_blob_prefix / blob_uuid.hex), with the
uuid rendered through toString. -/
def BasicDB.get_blob_key (db : BasicDB) (u : UUID) : String :=
  db.stash_key_root ++ "/" ++ toString u

/-- The facade's extension-field size check: with a configured ceiling the
packed payload must fit (assert len(extra_data) <= max_extra_fields_size);
an absent ceiling disables the check. -/
def extraSizeOk (ceiling : Option Nat) (m : Msg) : Bool :=
  match ceiling with
  | Option.none => true
  | some c => decide (msgSize m ≤ c)

/-- Insertion-ordered mapping update, as a Python dict assignment: an
existing key keeps its position, a new key is appended. -/
def assocSet {κ ν : Type} [BEq κ] : List (κ × ν) → κ → ν → List (κ × ν)
  | [], k, v => [(k, v)]
  | (k0, v0) :: tl, k, v =>
      if k0 == k then (k0, v) :: tl else (k0, v0) :: assocSet tl k v

/-- The public result shape of BasicDB.get. -/
inductive PubResult where
  | one (o : Option PubObject) : PubResult
  | many (os : List PubObject) : PubResult

/-- Converts an adapter result to public entities.  (The source converts the
rows inside the adapter, via convert_to_public_class=True; composing the
row-level query with the conversion at the facade boundary is the same
function on every state whose stored payloads unpack, which the theorems
below either assume or exhibit.) -/
def convertObjResult : ObjResult → Except Err PubResult
  | .one Option.none => .ok (.one Option.none)
  | .one (some o) =>
      match DBObject.to_public o with
      | .ok p => .ok (.one (some p))
      | .error e => .error e
  | .many os =>
      match os.mapM DBObject.to_public with
      | .ok ps => .ok (.many ps)
      | .error e => .error e

/-- BasicDB.get: resolve the effective namespace (asserting compatibility
with the fixed one), normalize the Object-instance argument to its uuid,
check the mutually-exclusive filter shapes, and run one get_object call with
the namespace filter on. -/
def BasicDB.get (db : BasicDB) (st : FullState) (object_ : Option PubObject)
    (uuid : Option UUID) (uuids : Option (List Ident))
    (nspace : Option String) (name : Option String)
    (names : Option (List String)) (type_ : Option String)
    (subtype : Option String) (include_hidden : Bool)
    (rel_first : Option ObjArg) (rel_second : Option ObjArg)
    (rel_type : Option StrOrList) (assertExists : Bool) : FOut PubResult :=
  let nsRes : Except Err (Option String) :=
    match nspace with
    | Option.none => .ok db.nspace
    | some n =>
        if db.nspace.isNone || db.nspace == some n then .ok (some n)
        else .error .assertionError
  match nsRes with
  | .error e => ⟨.error e, st, 0⟩
  | .ok ns' =>
      let uuidRes : Except Err (Option UUID) :=
        match object_ with
        | some o => if uuid.isSome then .error .assertionError else .ok (some o.uuid)
        | Option.none => .ok uuid
      match uuidRes with
      | .error e => ⟨.error e, st, 0⟩
      | .ok uuid' =>
          if uuid'.isSome && (uuids.isSome || name.isSome) then
            ⟨.error .assertionError, st, 0⟩
          else if name.isSome && names.isSome then
            ⟨.error .assertionError, st, 0⟩
          else if subtype.isSome && type_.isNone then
            ⟨.error .assertionError, st, 0⟩
          else
            match SQLAdapter.get_object st.db uuid' uuids ns' name names type_
                subtype include_hidden (rel_first.map uuid_if_object)
                (rel_second.map uuid_if_object) rel_type assertExists true with
            | .error e => ⟨.error e, st, 1⟩
            | .ok r =>
                match convertObjResult r with
                | .error e => ⟨.error e, st, 1⟩
                | .ok pr => ⟨.ok pr, st, 1⟩

/-- BasicDB.insert_blob: serialize non-bytes data (recording the pickle
tag), pack and size-check extra, insert the metadata row, and then write the
physical bytes to the stash under the blob-uuid key. -/
def BasicDB.insert_blob (db : BasicDB) (st : FullState)
    (object_or_uuid : ObjArg) (name : Option String) (type_ : Option String)
    (username : Option String) (extra : PyValue) (data : BlobData)
    (now : Nat) : FOut PubBlob :=
  let object_identifier := uuid_if_object object_or_uuid
  let stored : PickleData × Option String :=
    match data with
    | .bytes bs => (.raw bs, Option.none)
    | .obj v => (BasicDB.serialize v, some ("pickle"))
  let size := match stored.1 with
    | .raw bs => bs.length
    | .pickled v => pickleLen v
  let username' := match username with | Option.none => db.username | some u => u
  match extra with
  | .dict _ =>
      match pack_extra extra with
      | .error e => ⟨.error e, st, 0⟩
      | .ok m =>
          if !extraSizeOk db.max_extra_fields_size m then
            ⟨.error .assertionError, st, 0⟩
          else
            match SQLAdapter.insert_blob st.db object_identifier name type_
                (some username') m stored.2 size true db.nspace.isSome
                db.nspace now with
            | .error e => ⟨.error e, st, 1⟩
            | .ok (Option.none, db') => ⟨.error .assertionError, { st with db := db' }, 1⟩
            | .ok (some b, db') =>
                match DBBlob.to_public b with
                | .error e => ⟨.error e, { st with db := db' }, 1⟩
                | .ok pb =>
                    ⟨.ok pb,
                      { db := db',
                        stash := assocSet st.stash
                          (BasicDB.get_blob_key db b.uuid) stored.1 }, 1⟩
  | _ => ⟨.error .assertionError, st, 0⟩

/-- The blob-insertion loop of BasicDB.insert: each named payload goes
through BasicDB.insert_blob against the fresh object, accumulating state and
adapter calls; the first failure propagates (the committed prefix stays, as
each blob is its own transaction). -/
def insertBlobsLoop (db : BasicDB) (st : FullState) (parent : UUID)
    (items : List (Option String × BlobData)) (now : Nat) (calls : Nat) :
    (Except Err FullState) × Nat :=
  match items with
  | [] => (.ok st, calls)
  | (bn, bd) :: tl =>
      let r := BasicDB.insert_blob db st (.ident (.uuid parent)) bn
        Option.none Option.none (.dict .nil) bd now
      match r.result with
      | .error e => (.error e, calls + r.adapter_calls)
      | .ok _ => insertBlobsLoop db r.state parent tl now (calls + r.adapter_calls)

/-- BasicDB.insert: at most one of blob/blobs; default the username and the
namespace (an explicit namespace conflicting with the fixed one raises
NamespaceError); extra must be a dict, is packed and size-checked; then the
object row is inserted, followed by one insert_blob per supplied payload. -/
def BasicDB.insert (db : BasicDB) (st : FullState) (nspace : Option String)
    (name : Option String) (type_ : Option String) (subtype : Option String)
    (username : Option String) (extra : PyValue) (blob : Option BlobData)
    (blobs : Option (List (Option String × BlobData))) (return_result : Bool)
    (now : Nat) : FOut (Option PubObject) :=
  if blob.isSome && blobs.isSome then ⟨.error .assertionError, st, 0⟩
  else
    let also_insert_blobs := blob.isSome || blobs.isSome
    let username' := match username with | Option.none => db.username | some u => u
    let nsRes : Except Err (Option String) :=
      match nspace with
      | Option.none => .ok db.nspace
      | some n =>
          if db.nspace.isSome && !(db.nspace == some n) then
            .error .namespaceError
          else .ok (some n)
    match nsRes with
    | .error e => ⟨.error e, st, 0⟩
    | .ok ns' =>
        match extra with
        | .dict _ =>
            match pack_extra extra with
            | .error e => ⟨.error e, st, 0⟩
            | .ok m =>
                if !extraSizeOk db.max_extra_fields_size m then
                  ⟨.error .assertionError, st, 0⟩
                else if !also_insert_blobs then
                  match SQLAdapter.insert_object st.db ns' name type_ subtype
                      (some username') m return_result now with
                  | .error e => ⟨.error e, st, 1⟩
                  | .ok (Option.none, db') => ⟨.ok Option.none, { st with db := db' }, 1⟩
                  | .ok (some r, db') =>
                      match DBObject.to_public r with
                      | .error e => ⟨.error e, { st with db := db' }, 1⟩
                      | .ok p => ⟨.ok (some p), { st with db := db' }, 1⟩
                else
                  match SQLAdapter.insert_object st.db ns' name type_ subtype
                      (some username') m true now with
                  | .error e => ⟨.error e, st, 1⟩
                  | .ok (Option.none, db') =>
                      ⟨.error .assertionError, { st with db := db' }, 1⟩
                  | .ok (some new_obj, db') =>
                      let items := match blobs with
                        | Option.none =>
                            [(Option.none,
                              match blob with
                              | some b => b
                              | Option.none => BlobData.bytes [])]
                        | some l => l
                      match insertBlobsLoop db { st with db := db' }
                          new_obj.uuid items now 1 with
                      | (.error e, n) => ⟨.error e, { st with db := db' }, n⟩
                      | (.ok st2, n) =>
                          if return_result then
                            match DBObject.to_public new_obj with
                            | .error e => ⟨.error e, st2, n⟩
                            | .ok p => ⟨.ok (some p), st2, n⟩
                          else ⟨.ok Option.none, st2, n⟩
        | _ => ⟨.error .assertionError, st, 0⟩

/-- The whitelisted keyword arguments of BasicDB.update (the whitelist loop
is enforced by this record's shape): an outer some means the keyword was
passed. -/
structure UpdateKwargs where
  new_name : Option String
  type_ : Option (Option String)
  subtype : Option (Option String)
  nspace : Option (Option String)
  hidden : Option Bool
  username : Option (Option String)
  extra : Option PyValue

/-- Defaulting of BasicDB.update when the first argument is an Object
instance: every whitelisted keyword not explicitly passed is filled from the
instance's current value. -/
def updateDefaultsFromObject (o : PubObject) (k : UpdateKwargs) : UpdateKwargs :=
  { new_name := some (k.new_name.getD o.name),
    type_ := some (k.type_.getD o.type_),
    subtype := some (k.subtype.getD o.subtype),
    nspace := some (k.nspace.getD o.nspace),
    hidden := some (k.hidden.getD o.hidden),
    username := some (k.username.getD o.username),
    extra := some (k.extra.getD o.extra) }

/-- BasicDB.update: default the keywords from an Object-instance argument,
check a present namespace keyword against the fixed namespace
(NamespaceError on conflict), pack and size-check a present extra, and issue
one update_object call. -/
def BasicDB.update (db : BasicDB) (st : FullState)
    (object_identifier : ObjArg) (kwargs : UpdateKwargs) (now : Nat) :
    FOut Unit :=
  let kw := match object_identifier with
    | .obj o => updateDefaultsFromObject o kwargs
    | .ident _ => kwargs
  let nsConflict := match kw.nspace with
    | some v => db.nspace.isSome && !(db.nspace == v)
    | Option.none => false
  if nsConflict then ⟨.error .namespaceError, st, 0⟩
  else
    let run := fun (extra_data : Option Msg) =>
      match SQLAdapter.update_object st.db (uuid_if_object object_identifier)
          ⟨kw.new_name, kw.type_, kw.subtype, kw.nspace, kw.hidden,
            kw.username, extra_data⟩ db.nspace now with
      | .error e => (⟨.error e, st, 1⟩ : FOut Unit)
      | .ok db' => ⟨.ok (), { st with db := db' }, 1⟩
    match kw.extra with
    | some e =>
        match e with
        | .dict _ =>
            match pack_extra e with
            | .error er => ⟨.error er, st, 0⟩
            | .ok m =>
                if !extraSizeOk db.max_extra_fields_size m then
                  ⟨.error .assertionError, st, 0⟩
                else run (some m)
        | _ => ⟨.error .assertionError, st, 0⟩
    | Option.none => run Option.none

/-- The to_delete argument of BasicDB.delete: one entry or a list. -/
inductive DeleteArg where
  | one (a : ObjArg) : DeleteArg
  | listOf (as_ : List ObjArg) : DeleteArg

/-- BasicDB.delete: a hard delete is asserted to be enabled for the store
before anything else; the targets are collapsed to identifiers and one
delete_objects call is issued, namespace-checked when the store has a fixed
namespace. -/
def BasicDB.delete (db : BasicDB) (st : FullState) (to_delete : DeleteArg)
    (hide_only : Bool) (now : Nat) : FOut Unit :=
  if !hide_only && !db.allow_hard_delete then ⟨.error .assertionError, st, 0⟩
  else
    let uuid_list := match to_delete with
      | .one a => [uuid_if_object a]
      | .listOf l => l.map uuid_if_object
    match SQLAdapter.delete_objects st.db uuid_list hide_only db.nspace.isSome
        db.nspace now with
    | .error e => ⟨.error e, st, 1⟩
    | .ok db' => ⟨.ok (), { st with db := db' }, 1⟩

/-- The obj_identifier argument of BasicDB.get_blobs: one entry or a list. -/
inductive GetBlobsArg where
  | one (a : ObjArg) : GetBlobsArg
  | listOf (as_ : List ObjArg) : GetBlobsArg

/-- The public result shapes of BasicDB.get_blobs: for a single object a
mapping keyed by blob name or uuid, or the plain list; for a list of objects
the same, nested under each parent's uuid. -/
inductive FacadeBlobs where
  | byNameMap (m : List (Option String × PubBlob)) : FacadeBlobs
  | byUuidMap (m : List (UUID × PubBlob)) : FacadeBlobs
  | plain (l : List PubBlob) : FacadeBlobs
  | gByName (g : List (UUID × List (Option String × PubBlob))) : FacadeBlobs
  | gByUuid (g : List (UUID × List (UUID × PubBlob))) : FacadeBlobs
  | gPlain (g : List (UUID × List PubBlob)) : FacadeBlobs

/-- Converts blob rows to public entities. -/
def blobsToPublic (bs : List DBBlob) : Except Err (List PubBlob) :=
  bs.mapM DBBlob.to_public

/-- Re-keys a blob list by name ({x.name: x for x in v}). -/
def keyBlobsByName (bs : List PubBlob) : List (Option String × PubBlob) :=
  bs.foldl (fun acc b => assocSet acc b.name b) []

/-- Re-keys a blob list by uuid ({x.uuid: x for x in v}). -/
def keyBlobsByUuid (bs : List PubBlob) : List (UUID × PubBlob) :=
  bs.foldl (fun acc b => assocSet acc b.uuid b) []

/-- Converts a grouped adapter result to public entities groupwise. -/
def groupedToPublic (g : List (UUID × List DBBlob)) :
    Except Err (List (UUID × List PubBlob)) :=
  g.mapM (fun p =>
    match blobsToPublic p.2 with
    | .ok l => .ok (p.1, l)
    | .error e => .error e)

/-- BasicDB.get_blobs: for a list argument every element must be an Object
or a uuid; one grouped adapter call is made and each group is re-keyed per
return_by ('name', 'uuid', or None for the raw lists; anything else is a
ValueError).  For a single argument one list-shaped adapter call is made and
re-keyed the same way.  The namespace check is on exactly when the store has
a fixed namespace. -/
def BasicDB.get_blobs (db : BasicDB) (st : FullState)
    (obj_identifier : GetBlobsArg) (return_by : Option String)
    (include_hidden : Bool) : FOut FacadeBlobs :=
  match obj_identifier with
  | .listOf objs =>
      if objs.any (fun a =>
          match a with | .ident (.name _) => true | _ => false) then
        ⟨.error .assertionError, st, 0⟩
      else
        let us := (objs.map uuid_if_object).filterMap (fun i =>
          match i with | .uuid u => some u | .name _ => Option.none)
        match SQLAdapter.get_blobs st.db (some (.listOf us)) false Option.none
            Option.none Option.none include_hidden db.nspace.isSome db.nspace
            false with
        | .error e => ⟨.error e, st, 1⟩
        | .ok (.grouped g) =>
            (match groupedToPublic g with
            | .error e => ⟨.error e, st, 1⟩
            | .ok g' =>
                match return_by with
                | some s =>
                    if s == "name" then
                      ⟨.ok (.gByName (g'.map (fun p => (p.1, keyBlobsByName p.2)))), st, 1⟩
                    else if s == "uuid" then
                      ⟨.ok (.gByUuid (g'.map (fun p => (p.1, keyBlobsByUuid p.2)))), st, 1⟩
                    else ⟨.error .valueError, st, 1⟩
                | Option.none => ⟨.ok (.gPlain g'), st, 1⟩)
        | .ok _ => ⟨.error .assertionError, st, 1⟩
  | .one a =>
      match SQLAdapter.get_blobs st.db (some (.single (uuid_if_object a)))
          false Option.none Option.none Option.none include_hidden
          db.nspace.isSome db.nspace false with
      | .error e => ⟨.error e, st, 1⟩
      | .ok (.many bs) =>
          (match blobsToPublic bs with
          | .error e => ⟨.error e, st, 1⟩
          | .ok l =>
              match return_by with
              | some s =>
                  if s == "name" then ⟨.ok (.byNameMap (keyBlobsByName l)), st, 1⟩
                  else if s == "uuid" then ⟨.ok (.byUuidMap (keyBlobsByUuid l)), st, 1⟩
                  else ⟨.error .valueError, st, 1⟩
              | Option.none => ⟨.ok (.plain l), st, 1⟩)
      | .ok _ => ⟨.error .assertionError, st, 1⟩

/-- An entry of the uuids argument of BasicDB.load_blobs: the skip_database
mode expects Blob instances (it reads x.uuid); the database-backed mode uses
the entries as dictionary keys, i.e. plain uuids. -/
inductive BlobRef where
  | blobInst (b : PubBlob) : BlobRef
  | uuidOf (u : UUID) : BlobRef

/-- The result shapes of BasicDB.load_blobs: deserialized values keyed by
name or by uuid (paired with the blobs mapping when
also_return_blob_objects), or keyed by stash key in skip_database mode. -/
inductive LoadBlobsRes where
  | byName (vals : List (Option String × PyValue)) : LoadBlobsRes
  | byNameWith (vals : List (Option String × PyValue))
      (blobs : List (Option String × PubBlob)) : LoadBlobsRes
  | byUuid (vals : List (UUID × PyValue)) : LoadBlobsRes
  | byUuidWith (vals : List (UUID × PyValue))
      (blobs : List (UUID × PubBlob)) : LoadBlobsRes
  | skipDb (vals : List (String × PyValue)) : LoadBlobsRes

/-- objectstash get over a list of keys: a mapping from each key to its
stored bytes; a missing key fails. -/
def stashGetMulti (stash : List (String × PickleData)) :
    List String → Except Err (List (String × PickleData))
  | [] => .ok []
  | k :: tl =>
      match List.lookup k stash with
      | Option.none => .error .keyError
      | some v =>
          match stashGetMulti stash tl with
          | .error e => .error e
          | .ok rest => .ok ((k, v) :: rest)

/-- The keys_to_get loop of load_blobs keyed by name: each requested name is
looked up in the blobs mapping (KeyError when absent) and its stash key
mapped to the blob. -/
def buildKeysByName (db : BasicDB) (m : List (Option String × PubBlob))
    (xs : List (Option String)) (acc : List (String × PubBlob)) :
    Except Err (List (String × PubBlob)) :=
  match xs with
  | [] => .ok acc
  | x :: tl =>
      match List.lookup x m with
      | Option.none => .error .keyError
      | some b =>
          buildKeysByName db m tl
            (assocSet acc (BasicDB.get_blob_key db b.uuid) b)

/-- The keys_to_get loop of load_blobs keyed by uuid.  A Blob instance used
as a dictionary key fails (dataclass instances are unhashable). -/
def buildKeysByUuid (db : BasicDB) (m : List (UUID × PubBlob))
    (xs : List BlobRef) (acc : List (String × PubBlob)) :
    Except Err (List (String × PubBlob)) :=
  match xs with
  | [] => .ok acc
  | .blobInst _ :: _ => .error .typeError
  | .uuidOf u :: tl =>
      match List.lookup u m with
      | Option.none => .error .keyError
      | some b =>
          buildKeysByUuid db m tl
            (assocSet acc (BasicDB.get_blob_key db b.uuid) b)

/-- The result loop of load_blobs keyed by name: each fetched payload is
deserialized per its blob's tag and stored under the blob's name. -/
def buildResByName (keys_to_get : List (String × PubBlob))
    (tmp : List (String × PickleData)) (acc : List (Option String × PyValue)) :
    Except Err (List (Option String × PyValue)) :=
  match keys_to_get with
  | [] => .ok acc
  | (key, b) :: tl =>
      match List.lookup key tmp with
      | Option.none => .error .keyError
      | some d =>
          match BasicDB.deserialize d b.serialization with
          | .error e => .error e
          | .ok v => buildResByName tl tmp (assocSet acc b.name v)

/-- The result loop of load_blobs keyed by uuid. -/
def buildResByUuid (keys_to_get : List (String × PubBlob))
    (tmp : List (String × PickleData)) (acc : List (UUID × PyValue)) :
    Except Err (List (UUID × PyValue)) :=
  match keys_to_get with
  | [] => .ok acc
  | (key, b) :: tl =>
      match List.lookup key tmp with
      | Option.none => .error .keyError
      | some d =>
          match BasicDB.deserialize d b.serialization with
          | .error e => .error e
          | .ok v => buildResByUuid tl tmp (assocSet acc b.uuid v)

/-- The skip_database stash fetch: render each Blob instance's stash key (a
plain uuid has no .uuid attribute and fails). -/
def skipKeys (db : BasicDB) : List BlobRef → Except Err (List String)
  | [] => .ok []
  | .uuidOf _ :: _ => .error .attributeError
  | .blobInst b :: tl =>
      match skipKeys db tl with
      | .error e => .error e
      | .ok rest => .ok (BasicDB.get_blob_key db b.uuid :: rest)

/-- The skip_database result loop: every fetched payload deserialized with
the one caller-supplied tag, keyed by stash key. -/
def buildResSkip (tmp : List (String × PickleData))
    (serialization : Option String) (acc : List (String × PyValue)) :
    List (String × PickleData) → Except Err (List (String × PyValue))
  | [] => .ok acc
  | (k, d) :: tl =>
      match BasicDB.deserialize d serialization with
      | .error e => .error e
      | .ok v => buildResSkip tmp serialization (assocSet acc k v) tl

/-- BasicDB.load_blobs.  skip_database mode bypasses the metadata store
entirely (explicit Blob values, one shared serialization tag, zero adapter
calls).  Otherwise the object's blobs mapping is fetched (keyed by name, or
by uuid when uuids are given), the requested subset's payloads are read from
the stash in one call and deserialized, the result size is asserted to match
the request, and with also_return_blob_objects the full blobs mapping — not
the requested subset — is returned alongside.  (The identifier-less
database-backed call is not meaningful and not modelled: the identifier is
required here.) -/
def BasicDB.load_blobs (db : BasicDB) (st : FullState)
    (obj_identifier : ObjArg) (names : Option (List (Option String)))
    (uuids : Option (List BlobRef)) (skip_database : Bool)
    (serialization : Option String) (also_return_blob_objects : Bool) :
    FOut LoadBlobsRes :=
  if skip_database then
    if names.isSome || uuids.isNone || serialization.isNone then
      ⟨.error .assertionError, st, 0⟩
    else
      match skipKeys db (uuids.getD []) with
      | .error e => ⟨.error e, st, 0⟩
      | .ok ks =>
          match stashGetMulti st.stash ks with
          | .error e => ⟨.error e, st, 0⟩
          | .ok tmp_res =>
              match buildResSkip tmp_res serialization [] tmp_res with
              | .error e => ⟨.error e, st, 0⟩
              | .ok res =>
                  if !(res.length == (uuids.getD []).length) then
                    ⟨.error .assertionError, st, 0⟩
                  else ⟨.ok (.skipDb res), st, 0⟩
  else
    if uuids.isSome && names.isSome then ⟨.error .assertionError, st, 0⟩
    else
      match uuids with
      | Option.none =>
          match BasicDB.get_blobs db st (.one obj_identifier) (some ("name"))
              false with
          | ⟨.error e, st1, n⟩ => ⟨.error e, st1, n⟩
          | ⟨.ok (.byNameMap m), st1, n⟩ =>
              let names' := match names with
                | Option.none => m.map Prod.fst
                | some l => l
              (match buildKeysByName db m names' [] with
              | .error e => ⟨.error e, st1, n⟩
              | .ok keys_to_get =>
                  match stashGetMulti st1.stash (keys_to_get.map Prod.fst) with
                  | .error e => ⟨.error e, st1, n⟩
                  | .ok tmp_res =>
                      match buildResByName keys_to_get tmp_res [] with
                      | .error e => ⟨.error e, st1, n⟩
                      | .ok res =>
                          if !(res.length == names'.length) then
                            ⟨.error .assertionError, st1, n⟩
                          else if also_return_blob_objects then
                            ⟨.ok (.byNameWith res m), st1, n⟩
                          else ⟨.ok (.byName res), st1, n⟩)
          | ⟨.ok _, st1, n⟩ => ⟨.error .assertionError, st1, n⟩
      | some us =>
          match BasicDB.get_blobs db st (.one obj_identifier) (some ("uuid"))
              false with
          | ⟨.error e, st1, n⟩ => ⟨.error e, st1, n⟩
          | ⟨.ok (.byUuidMap m), st1, n⟩ =>
              (match buildKeysByUuid db m us [] with
              | .error e => ⟨.error e, st1, n⟩
              | .ok keys_to_get =>
                  match stashGetMulti st1.stash (keys_to_get.map Prod.fst) with
                  | .error e => ⟨.error e, st1, n⟩
                  | .ok tmp_res =>
                      match buildResByUuid keys_to_get tmp_res [] with
                      | .error e => ⟨.error e, st1, n⟩
                      | .ok res =>
                          if !(res.length == us.length) then
                            ⟨.error .assertionError, st1, n⟩
                          else if also_return_blob_objects then
                            ⟨.ok (.byUuidWith res m), st1, n⟩
                          else ⟨.ok (.byUuid res), st1, n⟩)
          | ⟨.ok _, st1, n⟩ => ⟨.error .assertionError, st1, n⟩

/-- The whitelisted keyword arguments of BasicDB.update_blob. -/
structure UpdateBlobKwargs where
  new_name : Option (Option String)
  type_ : Option (Option String)
  extra : Option PyValue
  username : Option (Option String)
  hidden : Option Bool
  data : Option BlobData

/-- The object_or_blob_identifier argument of BasicDB.update_blob: a Blob
instance (shorthand for its uuid) or an object identifier. -/
inductive BlobOrObjArg where
  | blobInst (b : PubBlob) : BlobOrObjArg
  | objArg (a : ObjArg) : BlobOrObjArg

/-- BasicDB.update_blob: a Blob-instance argument collapses to its uuid
(with no name allowed); either a uuid or an (object, name) pair must be
given, not both.  A data keyword is re-serialized as in insert_blob and sets
the serialization and size keywords; a present extra is packed and
size-checked.  One update_blob adapter call follows, and a data keyword
finally overwrites the stash bytes under the updated blob's key. -/
def BasicDB.update_blob (db : BasicDB) (st : FullState)
    (object_or_blob_identifier : Option BlobOrObjArg) (name : Option String)
    (uuid : Option UUID) (kwargs : UpdateBlobKwargs) (now : Nat) : FOut Unit :=
  let resolved : Except Err (Option UUID × Option ObjArg) :=
    match object_or_blob_identifier with
    | some (.blobInst b) =>
        if name.isSome then .error .assertionError
        else .ok (some b.uuid, Option.none)
    | some (.objArg a) => .ok (uuid, some a)
    | Option.none => .ok (uuid, Option.none)
  match resolved with
  | .error e => ⟨.error e, st, 0⟩
  | .ok (uuid', oid) =>
      if (match uuid' with
          | Option.none => oid.isNone
          | some _ => oid.isSome || name.isSome) then
        ⟨.error .assertionError, st, 0⟩
      else
        let dataPart : Option (PickleData × Option String) :=
          match kwargs.data with
          | Option.none => Option.none
          | some (.bytes bs) => some (.raw bs, Option.none)
          | some (.obj v) => some (BasicDB.serialize v, some ("pickle"))
        let serializationKw : Option (Option String) :=
          match dataPart with
          | Option.none => Option.none
          | some p => some p.2
        let sizeKw : Option Nat :=
          match dataPart with
          | Option.none => Option.none
          | some (.raw bs, _) => some bs.length
          | some (.pickled v, _) => some (pickleLen v)
        let run := fun (extra_data : Option Msg) =>
          match SQLAdapter.update_blob st.db (oid.map uuid_if_object) name
              uuid' ⟨kwargs.new_name, kwargs.hidden, serializationKw, sizeKw,
                kwargs.username, extra_data, kwargs.type_⟩ db.nspace.isSome
              db.nspace now with
          | .error e => (⟨.error e, st, 1⟩ : FOut Unit)
          | .ok (cur_uuid, db') =>
              match dataPart with
              | Option.none => ⟨.ok (), { st with db := db' }, 1⟩
              | some p =>
                  ⟨.ok (),
                    { db := db',
                      stash := assocSet st.stash
                        (BasicDB.get_blob_key db cur_uuid) p.1 }, 1⟩
        match kwargs.extra with
        | some e =>
            match e with
            | .dict _ =>
                match pack_extra e with
                | .error er => ⟨.error er, st, 0⟩
                | .ok m =>
                    if !extraSizeOk db.max_extra_fields_size m then
                      ⟨.error .assertionError, st, 0⟩
                    else run (some m)
            | _ => ⟨.error .assertionError, st, 0⟩
        | Option.none => run Option.none

/-- A store constructed with the fixed namespace "a" (hard deletes left
disabled, default size ceiling). -/
def storeNs : BasicDB := ⟨"alice", some ("a"), "basicdb_stash", some 1024, false⟩

/-- A store with no fixed namespace. -/
def store0 : BasicDB := ⟨"alice", Option.none, "basicdb_stash", some 1024, false⟩

/-- An empty database and stash. -/
def emptyState : FullState := ⟨⟨[], [], [], 100⟩, []⟩

/-- C1 counterexample: on a store fixed to namespace "a", a get with
explicit namespace "b" does fail before any storage-adapter call, but with
the plain argument assertion (assert self.namespace is None or namespace ==
self.namespace), not with NamespaceError as the claim states for all three
operations. -/
theorem namespace_conflict_get_counterexample :
    BasicDB.get storeNs emptyState Option.none Option.none Option.none
        (some ("b")) Option.none Option.none Option.none Option.none false
        Option.none Option.none Option.none false
      = ⟨Except.error Err.assertionError, emptyState, 0⟩
  ∧ Err.assertionError ≠ Err.namespaceError :=
  ⟨rfl, by decide⟩

/-- C1 (amended): on a store with a fixed namespace, every insert and every
update whose explicit namespace argument differs from the fixed one fails
with NamespaceError before any storage-adapter call is issued; a get with a
differing explicit namespace likewise fails before any storage-adapter call,
but through an argument assertion rather than NamespaceError. -/
theorem namespace_conflict_before_adapter :
    (∀ (db : BasicDB) (st : FullState) (s n : String)
        (name type_ subtype username : Option String) (extra : PyValue)
        (blob : Option BlobData)
        (blobs : Option (List (Option String × BlobData)))
        (return_result : Bool) (now : Nat),
      db.nspace = some s → n ≠ s → (blob.isSome && blobs.isSome) = false →
      BasicDB.insert db st (some n) name type_ subtype username extra blob
          blobs return_result now = ⟨.error .namespaceError, st, 0⟩)
  ∧ (∀ (db : BasicDB) (st : FullState) (s : String) (v : Option String)
        (oid : ObjArg) (kwargs : UpdateKwargs) (now : Nat),
      db.nspace = some s → kwargs.nspace = some v → v ≠ some s →
      BasicDB.update db st oid kwargs now = ⟨.error .namespaceError, st, 0⟩)
  ∧ (∀ (db : BasicDB) (st : FullState) (s n : String)
        (object_ : Option PubObject) (uuid : Option UUID)
        (uuids : Option (List Ident)) (name : Option String)
        (names : Option (List String)) (type_ subtype : Option String)
        (include_hidden : Bool) (rel_first rel_second : Option ObjArg)
        (rel_type : Option StrOrList) (assertExists : Bool),
      db.nspace = some s → n ≠ s →
      BasicDB.get db st object_ uuid uuids (some n) name names type_ subtype
          include_hidden rel_first rel_second rel_type assertExists
        = ⟨.error .assertionError, st, 0⟩) := by
  refine ⟨?_, ?_, ?_⟩
  · intro db st s n name type_ subtype username extra blob blobs rr now hns hn hbb
    have hb : ((db.nspace : Option String) == some n) = false := by
      rw [hns]
      exact beq_eq_false_iff_ne.mpr (by intro h; exact hn (Option.some.inj h).symm)
    have hsome : db.nspace.isSome = true := by rw [hns]; rfl
    simp [BasicDB.insert, hbb, hb, hsome]
  · intro db st s v oid kwargs now hns hkw hv
    have hb : ((db.nspace : Option String) == v) = false := by
      rw [hns]
      exact beq_eq_false_iff_ne.mpr (by intro h; exact hv h.symm)
    have hsome : db.nspace.isSome = true := by rw [hns]; rfl
    cases oid with
    | obj o =>
        simp [BasicDB.update, updateDefaultsFromObject, hkw, hb, hsome]
    | ident i =>
        simp [BasicDB.update, hkw, hb, hsome]
  · intro db st s n object_ uuid uuids name names type_ subtype ih rf rs rt ae
      hns hn
    have hb : ((db.nspace : Option String) == some n) = false := by
      rw [hns]
      exact beq_eq_false_iff_ne.mpr (by intro h; exact hn (Option.some.inj h).symm)
    have hnone : db.nspace.isNone = false := by rw [hns]; rfl
    simp [BasicDB.get, hb, hnone]

theorem namespace_conflict_before_adapter_witness :
    (BasicDB.insert storeNs emptyState (some ("b")) Option.none Option.none
        Option.none Option.none (.dict .nil) Option.none Option.none true 5
      = ⟨.error .namespaceError, emptyState, 0⟩)
  ∧ (BasicDB.update storeNs emptyState (.ident (.uuid 1))
        ⟨Option.none, Option.none, Option.none, some (some ("b")),
          Option.none, Option.none, Option.none⟩ 5
      = ⟨.error .namespaceError, emptyState, 0⟩)
  ∧ (BasicDB.get storeNs emptyState Option.none Option.none Option.none
        (some ("b")) Option.none Option.none Option.none Option.none false
        Option.none Option.none Option.none false
      = ⟨.error .assertionError, emptyState, 0⟩) :=
  ⟨namespace_conflict_before_adapter.1 storeNs emptyState ("a") ("b")
      Option.none Option.none Option.none Option.none (.dict .nil)
      Option.none Option.none true 5 rfl (by decide) rfl,
   namespace_conflict_before_adapter.2.1 storeNs emptyState ("a")
      (some ("b")) (.ident (.uuid 1))
      ⟨Option.none, Option.none, Option.none, some (some ("b")), Option.none,
        Option.none, Option.none⟩ 5 rfl rfl (by decide),
   namespace_conflict_before_adapter.2.2 storeNs emptyState ("a") ("b")
      Option.none Option.none Option.none Option.none Option.none Option.none
      Option.none false Option.none Option.none Option.none false rfl
      (by decide)⟩

/-- C5: on a store with a configured extension-field ceiling, an insert or
update of an object or blob whose packed extra payload exceeds the ceiling
fails before any storage-adapter call (zero adapter calls, state unchanged);
with the ceiling set to None the check is disabled and the same call reaches
the storage adapter. -/
theorem extra_size_ceiling :
    (∀ (db : BasicDB) (st : FullState) (c : Nat) (kvs : PyPairs) (m : Msg)
        (name type_ subtype username : Option String) (blob : Option BlobData)
        (blobs : Option (List (Option String × BlobData)))
        (return_result : Bool) (now : Nat),
      db.max_extra_fields_size = some c →
      (blob.isSome && blobs.isSome) = false →
      pack_extra (.dict kvs) = .ok m → c < msgSize m →
      BasicDB.insert db st Option.none name type_ subtype username
          (.dict kvs) blob blobs return_result now
        = ⟨.error .assertionError, st, 0⟩)
  ∧ (∀ (db : BasicDB) (st : FullState) (kvs : PyPairs) (m : Msg)
        (name type_ subtype username : Option String) (return_result : Bool)
        (now : Nat),
      db.max_extra_fields_size = Option.none →
      pack_extra (.dict kvs) = .ok m →
      (BasicDB.insert db st Option.none name type_ subtype username
          (.dict kvs) Option.none Option.none return_result now).adapter_calls
        = 1)
  ∧ (∀ (db : BasicDB) (st : FullState) (c : Nat) (i : Ident) (kvs : PyPairs)
        (m : Msg) (nn : Option String) (ty sub us : Option (Option String))
        (hd : Option Bool) (now : Nat),
      db.max_extra_fields_size = some c →
      pack_extra (.dict kvs) = .ok m → c < msgSize m →
      BasicDB.update db st (.ident i)
          ⟨nn, ty, sub, Option.none, hd, us, some (.dict kvs)⟩ now
        = ⟨.error .assertionError, st, 0⟩)
  ∧ (∀ (db : BasicDB) (st : FullState) (i : Ident) (kvs : PyPairs) (m : Msg)
        (nn : Option String) (ty sub us : Option (Option String))
        (hd : Option Bool) (now : Nat),
      db.max_extra_fields_size = Option.none →
      pack_extra (.dict kvs) = .ok m →
      (BasicDB.update db st (.ident i)
          ⟨nn, ty, sub, Option.none, hd, us, some (.dict kvs)⟩
          now).adapter_calls = 1)
  ∧ (∀ (db : BasicDB) (st : FullState) (c : Nat) (arg : ObjArg)
        (kvs : PyPairs) (m : Msg) (name type_ username : Option String)
        (data : BlobData) (now : Nat),
      db.max_extra_fields_size = some c →
      pack_extra (.dict kvs) = .ok m → c < msgSize m →
      BasicDB.insert_blob db st arg name type_ username (.dict kvs) data now
        = ⟨.error .assertionError, st, 0⟩)
  ∧ (∀ (db : BasicDB) (st : FullState) (arg : ObjArg) (kvs : PyPairs)
        (m : Msg) (name type_ username : Option String) (data : BlobData)
        (now : Nat),
      db.max_extra_fields_size = Option.none →
      pack_extra (.dict kvs) = .ok m →
      (BasicDB.insert_blob db st arg name type_ username (.dict kvs) data
          now).adapter_calls = 1)
  ∧ (∀ (db : BasicDB) (st : FullState) (c : Nat) (a : ObjArg)
        (name : Option String) (kvs : PyPairs) (m : Msg)
        (nn ty us : Option (Option String)) (hd : Option Bool)
        (data : Option BlobData) (now : Nat),
      db.max_extra_fields_size = some c →
      pack_extra (.dict kvs) = .ok m → c < msgSize m →
      BasicDB.update_blob db st (some (.objArg a)) name Option.none
          ⟨nn, ty, some (.dict kvs), us, hd, data⟩ now
        = ⟨.error .assertionError, st, 0⟩)
  ∧ (∀ (db : BasicDB) (st : FullState) (a : ObjArg) (name : Option String)
        (kvs : PyPairs) (m : Msg) (nn ty us : Option (Option String))
        (hd : Option Bool) (data : Option BlobData) (now : Nat),
      db.max_extra_fields_size = Option.none →
      pack_extra (.dict kvs) = .ok m →
      (BasicDB.update_blob db st (some (.objArg a)) name Option.none
          ⟨nn, ty, some (.dict kvs), us, hd, data⟩ now).adapter_calls = 1) := by
  have hszf : ∀ (c : Nat) (m : Msg), c < msgSize m →
      extraSizeOk (some c) m = false := by
    intro c m hlt
    simp [extraSizeOk, decide_eq_false_iff_not]
    exact hlt
  refine ⟨?_, ?_, ?_, ?_, ?_, ?_, ?_, ?_⟩
  · intro db st c kvs m name type_ subtype username blob blobs rr now hmax hbb
      hpack hlt
    have hsz := hszf c m hlt
    simp [BasicDB.insert, hbb, hpack, hmax, hsz]
  · intro db st kvs m name type_ subtype username rr now hmax hpack
    simp only [BasicDB.insert, hpack, hmax, extraSizeOk]
    repeat' split
    all_goals simp_all
  · intro db st c i kvs m nn ty sub us hd now hmax hpack hlt
    have hsz := hszf c m hlt
    simp [BasicDB.update, hpack, hmax, hsz]
  · intro db st i kvs m nn ty sub us hd now hmax hpack
    simp only [BasicDB.update, hpack, hmax, extraSizeOk]
    repeat' split
    all_goals simp_all
  · intro db st c arg kvs m name type_ username data now hmax hpack hlt
    have hsz := hszf c m hlt
    simp [BasicDB.insert_blob, hpack, hmax, hsz]
  · intro db st arg kvs m name type_ username data now hmax hpack
    simp only [BasicDB.insert_blob, hpack, hmax, extraSizeOk]
    repeat' split
    all_goals simp_all
  · intro db st c a name kvs m nn ty us hd data now hmax hpack hlt
    have hsz := hszf c m hlt
    simp [BasicDB.update_blob, hpack, hmax, hsz]
  · intro db st a name kvs m nn ty us hd data now hmax hpack
    simp only [BasicDB.update_blob, hpack, hmax, extraSizeOk]
    repeat' split
    all_goals simp_all

/-- A store with a tiny configured ceiling (3 bytes). -/
def storeSmall : BasicDB := ⟨"alice", Option.none, "basicdb_stash", some 3, false⟩

/-- A store with the ceiling disabled. -/
def storeNoCeil : BasicDB :=
  ⟨"alice", Option.none, "basicdb_stash", Option.none, false⟩

/-- An extra dict whose packed payload is 8 bytes. -/
def bigKvs : PyPairs := .cons (.str ("k")) (.str ("xxxx")) .nil

/-- The packed form of bigKvs. -/
def bigMsg : Msg := .map (.cons (.str ("k")) (.str ("xxxx")) .nil)

theorem extra_size_ceiling_witness :
    (BasicDB.insert storeSmall emptyState Option.none Option.none Option.none
        Option.none Option.none (.dict bigKvs) Option.none Option.none true 5
      = ⟨.error .assertionError, emptyState, 0⟩)
  ∧ ((BasicDB.insert storeNoCeil emptyState Option.none Option.none
        Option.none Option.none Option.none (.dict bigKvs) Option.none
        Option.none true 5).adapter_calls = 1)
  ∧ (BasicDB.update storeSmall emptyState (.ident (.uuid 1))
        ⟨Option.none, Option.none, Option.none, Option.none, Option.none,
          Option.none, some (.dict bigKvs)⟩ 5
      = ⟨.error .assertionError, emptyState, 0⟩)
  ∧ ((BasicDB.update storeNoCeil emptyState (.ident (.uuid 1))
        ⟨Option.none, Option.none, Option.none, Option.none, Option.none,
          Option.none, some (.dict bigKvs)⟩ 5).adapter_calls = 1)
  ∧ (BasicDB.insert_blob storeSmall emptyState (.ident (.uuid 1)) Option.none
        Option.none Option.none (.dict bigKvs) (.bytes [0]) 5
      = ⟨.error .assertionError, emptyState, 0⟩)
  ∧ ((BasicDB.insert_blob storeNoCeil emptyState (.ident (.uuid 1))
        Option.none Option.none Option.none (.dict bigKvs) (.bytes [0])
        5).adapter_calls = 1)
  ∧ (BasicDB.update_blob storeSmall emptyState
        (some (.objArg (.ident (.uuid 1)))) Option.none Option.none
        ⟨Option.none, Option.none, some (.dict bigKvs), Option.none,
          Option.none, Option.none⟩ 5
      = ⟨.error .assertionError, emptyState, 0⟩)
  ∧ ((BasicDB.update_blob storeNoCeil emptyState
        (some (.objArg (.ident (.uuid 1)))) Option.none Option.none
        ⟨Option.none, Option.none, some (.dict bigKvs), Option.none,
          Option.none, Option.none⟩ 5).adapter_calls = 1) :=
  ⟨extra_size_ceiling.1 storeSmall emptyState 3 bigKvs bigMsg Option.none
      Option.none Option.none Option.none Option.none Option.none true 5 rfl
      rfl rfl (by decide),
   extra_size_ceiling.2.1 storeNoCeil emptyState bigKvs bigMsg Option.none
      Option.none Option.none Option.none true 5 rfl rfl,
   extra_size_ceiling.2.2.1 storeSmall emptyState 3 (.uuid 1) bigKvs bigMsg
      Option.none Option.none Option.none Option.none Option.none 5 rfl rfl
      (by decide),
   extra_size_ceiling.2.2.2.1 storeNoCeil emptyState (.uuid 1) bigKvs bigMsg
      Option.none Option.none Option.none Option.none Option.none 5 rfl rfl,
   extra_size_ceiling.2.2.2.2.1 storeSmall emptyState 3 (.ident (.uuid 1))
      bigKvs bigMsg Option.none Option.none Option.none (.bytes [0]) 5 rfl rfl
      (by decide),
   extra_size_ceiling.2.2.2.2.2.1 storeNoCeil emptyState (.ident (.uuid 1))
      bigKvs bigMsg Option.none Option.none Option.none (.bytes [0]) 5 rfl rfl,
   extra_size_ceiling.2.2.2.2.2.2.1 storeSmall emptyState 3 (.ident (.uuid 1))
      Option.none bigKvs bigMsg Option.none Option.none Option.none
      Option.none Option.none 5 rfl rfl (by decide),
   extra_size_ceiling.2.2.2.2.2.2.2 storeNoCeil emptyState (.ident (.uuid 1))
      Option.none bigKvs bigMsg Option.none Option.none Option.none
      Option.none Option.none 5 rfl rfl⟩

/-- Distinctness of a key list (the primary-key invariant of a table). -/
def uuidNodup : List UUID → Bool
  | [] => true
  | u :: tl => !tl.contains u && uuidNodup tl

/-- On a list with distinct uuids, a filter whose predicate pins the uuid of
a member row returns exactly that row. -/
theorem filter_singleton_of_uuid (l : List DBObject) (o : DBObject)
    (p : DBObject → Bool) (hmem : o ∈ l)
    (hnd : uuidNodup (l.map (fun x => x.uuid)) = true)
    (hkey : ∀ x, p x = true → x.uuid = o.uuid) (hpo : p o = true) :
    l.filter p = [o] := by
  induction l with
  | nil => cases hmem
  | cons hd tl ih =>
      simp only [List.map_cons, uuidNodup, Bool.and_eq_true,
        Bool.not_eq_true'] at hnd
      obtain ⟨hc, hnd'⟩ := hnd
      simp only [List.contains] at hc
      rcases List.mem_cons.mp hmem with heq | hmemtl
      · subst heq
        rw [List.filter_cons_of_pos hpo]
        have hnil : tl.filter p = [] := by
          refine List.filter_eq_nil_iff.mpr ?_
          intro x hx hpx
          have hxu : x.uuid = o.uuid := hkey x hpx
          have hin : o.uuid ∈ tl.map (fun y => y.uuid) := by
            rw [← hxu]
            exact List.mem_map_of_mem _ hx
          have h2 := List.elem_iff.mpr hin
          rw [hc] at h2
          exact Bool.false_ne_true h2
        rw [hnil]
      · have hphd : p hd = false := by
          cases hph : p hd with
          | false => rfl
          | true =>
              have hu : hd.uuid = o.uuid := hkey hd hph
              have hin : hd.uuid ∈ tl.map (fun y => y.uuid) := by
                rw [hu]
                exact List.mem_map_of_mem _ hmemtl
              have h2 := List.elem_iff.mpr hin
              rw [hc] at h2
              exact absurd h2 Bool.false_ne_true
        rw [List.filter_cons_of_neg (by simp [hphd])]
        exact ih hmemtl hnd'

/-- C2: a hard (non-soft) delete is rejected by the facade, before any
storage-adapter call, unless hard deletes were enabled at construction; with
them enabled, hard-deleting an object that still has at least one blob or at
least one relationship in either direction — hidden rows included — fails at
the storage layer with DeletionError, the transaction is rolled back, and
the state (the object, its blobs and its relationships) is returned
unchanged. -/
theorem hard_delete_guard :
    (∀ (db : BasicDB) (st : FullState) (to_delete : DeleteArg) (now : Nat),
      db.allow_hard_delete = false →
      BasicDB.delete db st to_delete false now
        = ⟨.error .assertionError, st, 0⟩)
  ∧ (∀ (db : BasicDB) (st : FullState) (o : DBObject) (now : Nat),
      db.allow_hard_delete = true →
      o ∈ st.db.objects →
      uuidNodup (st.db.objects.map (fun x => x.uuid)) = true →
      (db.nspace = Option.none ∨ (o.nspace == db.nspace) = true) →
      ((∃ b ∈ st.db.blobs, b.parent = o.uuid)
        ∨ (∃ r ∈ st.db.relationships, r.first = o.uuid ∨ r.second = o.uuid)) →
      BasicDB.delete db st (.one (.ident (.uuid o.uuid))) false now
        = ⟨.error .deletionError, st, 1⟩) := by
  constructor
  · intro db st to_delete now hallow
    simp [BasicDB.delete, hallow]
  · intro db st o now hallow hmem hnd hns hdeps
    have hpo1 : objPred true Option.none (some [Ident.uuid o.uuid])
        Option.none Option.none (db.nspace.isSome || db.nspace.isSome)
        db.nspace Option.none Option.none Option.none o = true := by
      rcases hns with h | h
      · simp [objPred, h]
      · simp [objPred, h]
    have hkey1 : ∀ x, objPred true Option.none (some [Ident.uuid o.uuid])
        Option.none Option.none (db.nspace.isSome || db.nspace.isSome)
        db.nspace Option.none Option.none Option.none x = true →
        x.uuid = o.uuid := by
      intro x hx
      simp [objPred, Bool.and_eq_true] at hx
      tauto
    have hf1 := filter_singleton_of_uuid st.db.objects o
      (objPred true Option.none (some [Ident.uuid o.uuid]) Option.none
        Option.none (db.nspace.isSome || db.nspace.isSome) db.nspace
        Option.none Option.none Option.none) hmem hnd hkey1 hpo1
    have h1 : SQLAdapter.get_object_plain st.db Option.none
        (some [Ident.uuid o.uuid]) db.nspace Option.none Option.none
        Option.none Option.none true false db.nspace.isSome
        = Except.ok (.many [o]) := by
      simp only [SQLAdapter.get_object_plain]
      rw [hf1]
      rfl
    have hpo2 : objPred true (some o.uuid) Option.none Option.none Option.none
        (false || (Option.none : Option String).isSome) Option.none
        Option.none Option.none Option.none o = true := by
      simp [objPred]
    have hkey2 : ∀ x, objPred true (some o.uuid) Option.none Option.none
        Option.none (false || (Option.none : Option String).isSome)
        Option.none Option.none Option.none Option.none x = true →
        x.uuid = o.uuid := by
      intro x hx
      simp [objPred, Bool.and_eq_true] at hx
      tauto
    have hf2 := filter_singleton_of_uuid st.db.objects o
      (objPred true (some o.uuid) Option.none Option.none Option.none
        (false || (Option.none : Option String).isSome) Option.none
        Option.none Option.none Option.none) hmem hnd hkey2 hpo2
    have h2 : SQLAdapter.get_object_from_identifier st.db (.uuid o.uuid) false
        Option.none true false = Except.ok (some o) := by
      simp only [SQLAdapter.get_object_from_identifier,
        SQLAdapter.get_object_plain]
      rw [hf2]
      rfl
    have h3 : SQLAdapter.get_blobs st.db (some (.single (.uuid o.uuid))) false
        Option.none Option.none Option.none true false Option.none false
        = Except.ok (.many (st.db.blobs.filter (fun b =>
            b.parent == o.uuid && (true || b.hidden == false)
              && (!false || b.name == Option.none)))) := by
      simp only [SQLAdapter.get_blobs]
      rw [h2]
      rfl
    have h4 : SQLAdapter.get_relationships st.db Option.none Option.none
        (some (.uuid o.uuid)) Option.none Option.none Option.none false true
        false
        = Except.ok (.many (st.db.relationships.filter (fun r =>
            ((true || r.hidden == false) && relTypePred Option.none r)
              && r.first == o.uuid))) := by
      simp only [SQLAdapter.get_relationships]
      rw [h2]
      rfl
    have h5 : SQLAdapter.get_relationships st.db Option.none Option.none
        Option.none (some (.uuid o.uuid)) Option.none Option.none false true
        false
        = Except.ok (.many (st.db.relationships.filter (fun r =>
            ((true || r.hidden == false) && relTypePred Option.none r)
              && r.second == o.uuid))) := by
      simp only [SQLAdapter.get_relationships]
      rw [h2]
      rfl
    by_cases hbf : st.db.blobs.filter (fun b => b.parent == o.uuid) = []
    · by_cases hrf :
          st.db.relationships.filter (fun r => r.first == o.uuid) = []
      · have hsne : st.db.relationships.filter
            (fun r => r.second == o.uuid) ≠ [] := by
          rcases hdeps with ⟨b, hbm, hbp⟩ | ⟨r, hrm, hror⟩
          · exfalso
            have : b ∈ st.db.blobs.filter (fun b => b.parent == o.uuid) :=
              List.mem_filter.mpr ⟨hbm, by simp [hbp]⟩
            rw [hbf] at this
            cases this
          · rcases hror with hfi | hse
            · exfalso
              have : r ∈ st.db.relationships.filter
                  (fun r => r.first == o.uuid) :=
                List.mem_filter.mpr ⟨hrm, by simp [hfi]⟩
              rw [hrf] at this
              cases this
            · intro hnil
              have : r ∈ st.db.relationships.filter
                  (fun r => r.second == o.uuid) :=
                List.mem_filter.mpr ⟨hrm, by simp [hse]⟩
              rw [hnil] at this
              cases this
        simp [BasicDB.delete, hallow, uuid_if_object,
          SQLAdapter.delete_objects, h1, hardDeleteChecks, h3, h4, h5,
          relTypePred, hbf, hrf, hsne]
      · simp [BasicDB.delete, hallow, uuid_if_object,
          SQLAdapter.delete_objects, h1, hardDeleteChecks, h3, h4, h5,
          relTypePred, hbf, hrf]
    · simp [BasicDB.delete, hallow, uuid_if_object,
        SQLAdapter.delete_objects, h1, hardDeleteChecks, h3, h4, h5,
        relTypePred, hbf]

/-- A store with hard deletes enabled. -/
def storeHard : BasicDB := ⟨"alice", Option.none, "basicdb_stash", some 1024, true⟩

/-- A row named test1 with an empty packed extra. -/
def obj1 : DBObject :=
  ⟨1, Option.none, "test1", Option.none, Option.none, 0, Option.none, false,
    some ("alice"), .map .nil⟩

/-- A blob row owned by obj1. -/
def blob1 : DBBlob :=
  ⟨2, 1, Option.none, Option.none, 2, 0, Option.none, false, some ("alice"),
    Option.none, .map .nil⟩

/-- A state holding obj1 and its blob. -/
def stC2 : FullState := ⟨⟨[obj1], [blob1], [], 100⟩, []⟩

theorem hard_delete_guard_witness :
    (BasicDB.delete store0 stC2 (.one (.ident (.uuid 1))) false 5
      = ⟨.error .assertionError, stC2, 0⟩)
  ∧ (BasicDB.delete storeHard stC2 (.one (.ident (.uuid obj1.uuid))) false 5
      = ⟨.error .deletionError, stC2, 1⟩) :=
  ⟨hard_delete_guard.1 store0 stC2 (.one (.ident (.uuid 1))) 5 rfl,
   hard_delete_guard.2 storeHard stC2 obj1 5 rfl
      (List.mem_singleton.mpr rfl) rfl (Or.inl rfl)
      (Or.inl ⟨blob1, List.mem_singleton.mpr rfl, rfl⟩)⟩

/-- One groupAdd step, seen through lookup: the added row lands in its
parent's bucket (created on first sight), and other keys are untouched. -/
theorem groupAdd_lookup (g : List (UUID × List DBBlob)) (b : DBBlob)
    (u : UUID) :
    List.lookup u (groupAdd g b)
      = if b.parent == u then
          (match List.lookup u g with
           | Option.none => some [b]
           | some l => some (l ++ [b]))
        else List.lookup u g := by
  induction g with
  | nil =>
      by_cases h : b.parent = u
      · simp [groupAdd, List.lookup, beq_iff_eq.mpr h,
          beq_iff_eq.mpr h.symm]
      · simp [groupAdd, List.lookup, beq_eq_false_iff_ne.mpr h,
          beq_eq_false_iff_ne.mpr (Ne.symm h)]
  | cons hd tl ih =>
      obtain ⟨p, bs⟩ := hd
      by_cases hp : p = b.parent
      · have hpb : (p == b.parent) = true := beq_iff_eq.mpr hp
        by_cases hu : p = u
        · have hup : (u == p) = true := beq_iff_eq.mpr hu.symm
          have hbu : (b.parent == u) = true :=
            beq_iff_eq.mpr (hp.symm.trans hu)
          simp [groupAdd, List.lookup, hpb, hup, hbu]
        · have hup : (u == p) = false :=
            beq_eq_false_iff_ne.mpr (fun hh => hu hh.symm)
          have hbu : (b.parent == u) = false :=
            beq_eq_false_iff_ne.mpr (fun hh => hu (hp.trans hh))
          simp [groupAdd, List.lookup, hpb, hup, hbu]
      · have hpb : (p == b.parent) = false := beq_eq_false_iff_ne.mpr hp
        by_cases hu : p = u
        · have hup : (u == p) = true := beq_iff_eq.mpr hu.symm
          have hbu : (b.parent == u) = false :=
            beq_eq_false_iff_ne.mpr (fun hh => hp (hu.trans hh.symm))
          simp [groupAdd, List.lookup, hpb, hup, hbu, ih]
        · have hup : (u == p) = false :=
            beq_eq_false_iff_ne.mpr (fun hh => hu hh.symm)
          simp [groupAdd, List.lookup, hpb, hup, ih]

/-- The grouping dict built by folding groupAdd, seen through lookup: a key
maps to the accumulated bucket extended with its matching rows, and a key
with no bucket and no matching rows is absent. -/
theorem foldl_groupAdd_lookup (bs : List DBBlob)
    (acc : List (UUID × List DBBlob)) (u : UUID) :
    List.lookup u (bs.foldl groupAdd acc)
      = (match List.lookup u acc with
         | Option.none =>
             if (bs.filter (fun b => b.parent == u)).isEmpty then Option.none
             else some (bs.filter (fun b => b.parent == u))
         | some l => some (l ++ bs.filter (fun b => b.parent == u))) := by
  induction bs generalizing acc with
  | nil => cases h : List.lookup u acc <;> simp [h]
  | cons b bs ih =>
      rw [List.foldl_cons, ih (groupAdd acc b), groupAdd_lookup]
      by_cases hb : b.parent = u
      · have hbu : (b.parent == u) = true := beq_iff_eq.mpr hb
        cases h : List.lookup u acc with
        | none => simp [h, hbu, List.filter_cons]
        | some l => simp [h, hbu, List.filter_cons]
      · have hbu : (b.parent == u) = false := beq_eq_false_iff_ne.mpr hb
        cases h : List.lookup u acc with
        | none => simp [h, hbu, List.filter_cons]
        | some l => simp [h, hbu, List.filter_cons]

/-- The objects of stC9: one object, no blobs at all. -/
def stC9 : FullState := ⟨⟨[obj1], [], [], 100⟩, []⟩

/-- The public form of obj1. -/
def pub1 : PubObject :=
  ⟨1, Option.none, "test1", Option.none, Option.none, 0, Option.none, false,
    some ("alice"), .dict .nil⟩

/-- C9 counterexample: get_blobs over a list containing one existing object
with zero blobs returns an empty mapping — the listed object's uuid gets no
entry, contradicting the claim that every listed object appears. -/
theorem get_blobs_list_counterexample :
    BasicDB.get_blobs store0 stC9 (.listOf [.obj pub1]) (some ("name")) false
      = ⟨.ok (.gByName []), stC9, 1⟩
  ∧ List.lookup pub1.uuid
      ([] : List (UUID × List (Option String × PubBlob))) = Option.none :=
  ⟨rfl, rfl⟩

/-- C9 (amended): for a list of existing objects, get_blobs returns a
mapping with an entry exactly for each listed object that has at least one
blob passing the include_hidden filter — an entry holding precisely that
object's rows — while listed objects with zero such blobs are absent; the
facade then re-keys each present entry per return_by (shown for 'name'). -/
theorem get_blobs_list_amended :
    (∀ (bs : List DBBlob) (u : UUID),
      List.lookup u (groupByParent bs)
        = if (bs.filter (fun b => b.parent == u)).isEmpty then Option.none
          else some (bs.filter (fun b => b.parent == u)))
  ∧ (∀ (db : BasicDB) (st : FullState) (objs : List ObjArg)
        (include_hidden : Bool) (us : List UUID)
        (g : List (UUID × List DBBlob)) (g' : List (UUID × List PubBlob)),
      (objs.any (fun a =>
        match a with | .ident (.name _) => true | _ => false)) = false →
      us = (objs.map uuid_if_object).filterMap (fun i =>
        match i with | .uuid u => some u | .name _ => Option.none) →
      SQLAdapter.get_blobs st.db (some (.listOf us)) false Option.none
          Option.none Option.none include_hidden db.nspace.isSome db.nspace
          false = Except.ok (.grouped g) →
      groupedToPublic g = .ok g' →
      BasicDB.get_blobs db st (.listOf objs) (some ("name")) include_hidden
        = ⟨.ok (.gByName (g'.map (fun p => (p.1, keyBlobsByName p.2)))),
            st, 1⟩) := by
  constructor
  · intro bs u
    have h := foldl_groupAdd_lookup bs [] u
    simpa [groupByParent] using h
  · intro db st objs include_hidden us g g' hno hus hadapter hconv
    subst hus
    rw [List.filterMap_map] at hadapter
    simp [BasicDB.get_blobs, hno, hadapter, hconv]

/-- The public form of blob1. -/
def pubBlob1 : PubBlob :=
  ⟨2, 1, Option.none, Option.none, 2, 0, Option.none, false, some ("alice"),
    Option.none, .dict .nil⟩

theorem get_blobs_list_amended_witness :
    (List.lookup 1 (groupByParent [blob1])
      = if (([blob1].filter (fun b => b.parent == 1)).isEmpty) then
          Option.none
        else some ([blob1].filter (fun b => b.parent == 1)))
  ∧ BasicDB.get_blobs store0 stC2 (.listOf [.ident (.uuid 1)]) (some ("name"))
        false
      = ⟨.ok (.gByName ([(1, [blob1])].map (fun p =>
          ((p.1 : UUID), keyBlobsByName [pubBlob1])))), stC2, 1⟩ := by
  constructor
  · exact get_blobs_list_amended.1 [blob1] 1
  · have h := get_blobs_list_amended.2 store0 stC2 [.ident (.uuid 1)] false
      [1] [(1, [blob1])] [(1, [pubBlob1])] rfl rfl rfl rfl
    simpa using h

/-- C10: in the database-backed mode with an explicit names (respectively
uuids) subset and also_return_blob_objects, load_blobs returns as second
component the full mapping of the object's visible blobs keyed by name
(respectively uuid) — the mapping produced by get_blobs — not the mapping
restricted to the requested subset. -/
theorem load_blobs_full_mapping :
    (∀ (db : BasicDB) (st st1 : FullState) (a : ObjArg) (n : Nat)
        (ns : List (Option String)) (m : List (Option String × PubBlob))
        (keys_to_get : List (String × PubBlob))
        (tmp : List (String × PickleData))
        (res : List (Option String × PyValue)),
      BasicDB.get_blobs db st (.one a) (some ("name")) false
        = ⟨.ok (.byNameMap m), st1, n⟩ →
      buildKeysByName db m ns [] = .ok keys_to_get →
      stashGetMulti st1.stash (keys_to_get.map Prod.fst) = .ok tmp →
      buildResByName keys_to_get tmp [] = .ok res →
      res.length = ns.length →
      BasicDB.load_blobs db st a (some ns) Option.none false Option.none true
        = ⟨.ok (.byNameWith res m), st1, n⟩)
  ∧ (∀ (db : BasicDB) (st st1 : FullState) (a : ObjArg) (n : Nat)
        (us : List BlobRef) (m : List (UUID × PubBlob))
        (keys_to_get : List (String × PubBlob))
        (tmp : List (String × PickleData)) (res : List (UUID × PyValue)),
      BasicDB.get_blobs db st (.one a) (some ("uuid")) false
        = ⟨.ok (.byUuidMap m), st1, n⟩ →
      buildKeysByUuid db m us [] = .ok keys_to_get →
      stashGetMulti st1.stash (keys_to_get.map Prod.fst) = .ok tmp →
      buildResByUuid keys_to_get tmp [] = .ok res →
      res.length = us.length →
      BasicDB.load_blobs db st a Option.none (some us) false Option.none true
        = ⟨.ok (.byUuidWith res m), st1, n⟩) := by
  constructor
  · intro db st st1 a n ns m keys_to_get tmp res hg hkeys hstash hres hlen
    simp [BasicDB.load_blobs, hg, hkeys, hstash, hres, hlen]
  · intro db st st1 a n us m keys_to_get tmp res hg hkeys hstash hres hlen
    simp [BasicDB.load_blobs, hg, hkeys, hstash, hres, hlen]

/-- A named blob row x on obj1. -/
def blobX : DBBlob :=
  ⟨2, 1, some ("x"), Option.none, 1, 0, Option.none, false, some ("alice"),
    Option.none, .map .nil⟩

/-- A named blob row y on obj1. -/
def blobY : DBBlob :=
  ⟨3, 1, some ("y"), Option.none, 1, 0, Option.none, false, some ("alice"),
    Option.none, .map .nil⟩

/-- The public form of blobX. -/
def pubBlobX : PubBlob :=
  ⟨2, 1, some ("x"), Option.none, 1, 0, Option.none, false, some ("alice"),
    Option.none, .dict .nil⟩

/-- The public form of blobY. -/
def pubBlobY : PubBlob :=
  ⟨3, 1, some ("y"), Option.none, 1, 0, Option.none, false, some ("alice"),
    Option.none, .dict .nil⟩

/-- A state with obj1 owning blobs x and y, whose payloads sit in the
stash. -/
def stC10 : FullState :=
  ⟨⟨[obj1], [blobX, blobY], [], 100⟩,
   [("basicdb_stash/2", .raw [7]), ("basicdb_stash/3", .raw [8])]⟩

theorem load_blobs_full_mapping_witness :
    (BasicDB.load_blobs store0 stC10 (.ident (.uuid 1))
        (some [some ("x")]) Option.none false Option.none true
      = ⟨.ok (.byNameWith [(some ("x"), .bytes [7])]
          [(some ("x"), pubBlobX), (some ("y"), pubBlobY)]), stC10, 1⟩)
  ∧ (BasicDB.load_blobs store0 stC10 (.ident (.uuid 1)) Option.none
        (some [.uuidOf 2]) false Option.none true
      = ⟨.ok (.byUuidWith [(2, .bytes [7])]
          [(2, pubBlobX), (3, pubBlobY)]), stC10, 1⟩) :=
  ⟨load_blobs_full_mapping.1 store0 stC10 stC10 (.ident (.uuid 1)) 1
      [some ("x")] [(some ("x"), pubBlobX), (some ("y"), pubBlobY)]
      [("basicdb_stash/2", pubBlobX)] [("basicdb_stash/2", .raw [7])]
      [(some ("x"), .bytes [7])] rfl rfl rfl rfl rfl,
   load_blobs_full_mapping.2 store0 stC10 stC10 (.ident (.uuid 1)) 1
      [.uuidOf 2] [(2, pubBlobX), (3, pubBlobY)]
      [("basicdb_stash/2", pubBlobX)] [("basicdb_stash/2", .raw [7])]
      [(2, .bytes [7])] rfl rfl rfl rfl rfl⟩

/-- Two rows of a uuid-distinct list with the same uuid are the same row. -/
theorem eq_of_mem_uuid (l : List DBObject) (o x : DBObject)
    (hnd : uuidNodup (l.map (fun y => y.uuid)) = true) (ho : o ∈ l)
    (hx : x ∈ l) (h : x.uuid = o.uuid) : x = o := by
  have hf := filter_singleton_of_uuid l o (fun y => y.uuid == o.uuid) ho hnd
    (fun y hy => beq_iff_eq.mp hy) (beq_iff_eq.mpr rfl)
  have hmem : x ∈ l.filter (fun y => y.uuid == o.uuid) :=
    List.mem_filter.mpr ⟨hx, beq_iff_eq.mpr h⟩
  rw [hf] at hmem
  exact List.mem_singleton.mp hmem

/-- The uuid filter of a single-row get_object query returns exactly the
member row with that uuid, whenever the row passes the hidden and namespace
clauses. -/
theorem get_filter_singleton (l : List DBObject) (o : DBObject) (ih : Bool)
    (nsF : Bool) (ns : Option String) (u : UUID) (hu : o.uuid = u)
    (hmem : o ∈ l) (hnd : uuidNodup (l.map (fun y => y.uuid)) = true)
    (hvis : (ih || o.hidden == false) = true)
    (hns : (!nsF || o.nspace == ns) = true) :
    l.filter (objPred ih (some u) Option.none Option.none Option.none nsF ns
      Option.none Option.none Option.none) = [o] := by
  refine filter_singleton_of_uuid l o _ hmem hnd ?_ ?_
  · intro x hx
    simp [objPred, Bool.and_eq_true] at hx
    rw [hu]
    tauto
  · have hv := hvis
    have hn := hns
    rw [Bool.or_eq_true] at hv hn
    simp only [beq_iff_eq, Bool.not_eq_true'] at hv hn
    simp [objPred, hu]
    tauto

/-- The uuid-list filter of delete_objects for a single target returns
exactly the member row with that uuid. -/
theorem get_filter_singleton_list (l : List DBObject) (o : DBObject)
    (ih : Bool) (nsF : Bool) (ns : Option String) (u : UUID) (hu : o.uuid = u)
    (hmem : o ∈ l) (hnd : uuidNodup (l.map (fun y => y.uuid)) = true)
    (hvis : (ih || o.hidden == false) = true)
    (hns : (!nsF || o.nspace == ns) = true) :
    l.filter (objPred ih Option.none (some [Ident.uuid u]) Option.none
      Option.none nsF ns Option.none Option.none Option.none) = [o] := by
  refine filter_singleton_of_uuid l o _ hmem hnd ?_ ?_
  · intro x hx
    simp [objPred, Bool.and_eq_true] at hx
    rw [hu]
    tauto
  · have hv := hvis
    have hn := hns
    rw [Bool.or_eq_true] at hv hn
    simp only [beq_iff_eq, Bool.not_eq_true'] at hv hn
    simp [objPred, hu]
    tauto

/-- The uuid filter misses every row when the row owning the uuid fails the
hidden clause (a hidden row under a default query). -/
theorem get_filter_nil (l : List DBObject) (o : DBObject) (ih : Bool)
    (nsF : Bool) (ns : Option String) (u : UUID) (hu : o.uuid = u)
    (hmem : o ∈ l) (hnd : uuidNodup (l.map (fun y => y.uuid)) = true)
    (hvis : (ih || o.hidden == false) = false) :
    l.filter (objPred ih (some u) Option.none Option.none Option.none nsF ns
      Option.none Option.none Option.none) = [] := by
  refine List.filter_eq_nil_iff.mpr ?_
  intro x hx hpx
  have hpx' := hpx
  simp [objPred] at hpx'
  have hxu : x.uuid = u := by tauto
  have hxo : x = o := eq_of_mem_uuid l o x hnd hmem hx (hxu.trans hu.symm)
  subst hxo
  have hor : ih = true ∨ x.hidden = false := by tauto
  rcases hor with h | h
  · rw [h] at hvis
    simp at hvis
  · have hb : (x.hidden == false) = true := beq_iff_eq.mpr h
    rw [hb] at hvis
    simp at hvis

/-- A map preserving uuid, namespace and name preserves the objects-table
uniqueness invariant. -/
theorem objectIndexOk_map (l : List DBObject) (f : DBObject → DBObject)
    (hf : ∀ x, (f x).uuid = x.uuid ∧ (f x).nspace = x.nspace
      ∧ (f x).name = x.name)
    (h : objectIndexOk l = true) : objectIndexOk (l.map f) = true := by
  induction l with
  | nil => rfl
  | cons hd tl ih =>
      simp only [objectIndexOk, Bool.and_eq_true, List.map_cons] at h ⊢
      obtain ⟨h1, h2⟩ := h
      refine ⟨?_, ih h2⟩
      rw [List.all_map]
      rw [List.all_eq_true] at h1 ⊢
      intro x hx
      have hfx := hf x
      have hfh := hf hd
      have hh := h1 x hx
      simp only [Function.comp, hfx.1, hfx.2.1, hfx.2.2, hfh.1, hfh.2.1,
        hfh.2.2]
      exact hh

/-- A map preserving uuid preserves uuid distinctness. -/
theorem uuidNodup_map (l : List DBObject) (f : DBObject → DBObject)
    (hf : ∀ x, (f x).uuid = x.uuid)
    (h : uuidNodup (l.map (fun y => y.uuid)) = true) :
    uuidNodup ((l.map f).map (fun y => y.uuid)) = true := by
  have heq : (l.map f).map (fun y => y.uuid) = l.map (fun y => y.uuid) := by
    rw [List.map_map]
    exact List.map_congr_left (fun x _ => hf x)
  rw [heq]
  exact h

/-- The state after soft-deleting the object with o's uuid: its row is
marked hidden with a touched modification time. -/
def softDeleted (o : DBObject) (now : Nat) (st : FullState) : FullState :=
  { st with db := { st.db with objects := st.db.objects.map (fun x =>
      if o.uuid == x.uuid then
        { x with hidden := true, modification_time := some now }
      else x) } }

/-- The update keywords that just clear the hidden flag. -/
def unhideKwargs : ObjectUpdateKwargs :=
  ⟨Option.none, Option.none, Option.none, Option.none, some false,
    Option.none, Option.none⟩

/-- The state after clearing the hidden flag of the row with the given
uuid (stamping its modification time). -/
def unhiddenAt (u : UUID) (now2 : Nat) (st : FullState) : FullState :=
  { st with db := { st.db with objects := st.db.objects.map (fun x =>
      if x.uuid == u then applyObjectUpdate x unhideKwargs now2 else x) } }

/-- C6: after a soft delete (delete with hide_only) the object's row is
hidden with its modification time touched; a get by uuid without
include_hidden then returns nothing, a get with include_hidden returns
exactly that object (same uuid); and an update setting hidden to false
restores default visibility. -/
theorem soft_delete_visibility :
    ∀ (db : BasicDB) (st : FullState) (o : DBObject) (d : PyValue)
      (now now2 : Nat),
      o ∈ st.db.objects →
      uuidNodup (st.db.objects.map (fun y => y.uuid)) = true →
      objectIndexOk st.db.objects = true →
      (o.nspace == db.nspace) = true →
      unpack_extra o.extra_data = Except.ok d →
      BasicDB.delete db st (.one (.ident (.uuid o.uuid))) true now
        = ⟨.ok (), softDeleted o now st, 1⟩
      ∧ { o with hidden := true, modification_time := some now }
          ∈ (softDeleted o now st).db.objects
      ∧ BasicDB.get db (softDeleted o now st) Option.none (some o.uuid)
          Option.none Option.none Option.none Option.none Option.none
          Option.none false Option.none Option.none Option.none false
        = ⟨.ok (.one Option.none), softDeleted o now st, 1⟩
      ∧ BasicDB.get db (softDeleted o now st) Option.none (some o.uuid)
          Option.none Option.none Option.none Option.none Option.none
          Option.none true Option.none Option.none Option.none false
        = ⟨.ok (.one (some ⟨o.uuid, o.nspace, o.name, o.type_, o.subtype,
            o.creation_time, some now, true, o.username, d⟩)),
            softDeleted o now st, 1⟩
      ∧ BasicDB.update db (softDeleted o now st) (.ident (.uuid o.uuid))
          ⟨Option.none, Option.none, Option.none, Option.none, some false,
            Option.none, Option.none⟩ now2
        = ⟨.ok (), unhiddenAt o.uuid now2 (softDeleted o now st), 1⟩
      ∧ BasicDB.get db (unhiddenAt o.uuid now2 (softDeleted o now st))
          Option.none (some o.uuid) Option.none Option.none Option.none
          Option.none Option.none Option.none false Option.none Option.none
          Option.none false
        = ⟨.ok (.one (some ⟨o.uuid, o.nspace, o.name, o.type_, o.subtype,
            o.creation_time, some now2, false, o.username, d⟩)),
            unhiddenAt o.uuid now2 (softDeleted o now st), 1⟩ := by
  intro db st o d now now2 hmem hnd hidx hns hunp
  have hfpres : ∀ x : DBObject,
      ((fun x => if o.uuid == x.uuid then
        { x with hidden := true, modification_time := some now }
      else x) x).uuid = x.uuid := by
    intro x
    by_cases h : o.uuid = x.uuid <;> simp [h]
  have hfpres3 : ∀ x : DBObject,
      ((fun x => if o.uuid == x.uuid then
        { x with hidden := true, modification_time := some now }
      else x) x).uuid = x.uuid
      ∧ ((fun x => if o.uuid == x.uuid then
        { x with hidden := true, modification_time := some now }
      else x) x).nspace = x.nspace
      ∧ ((fun x => if o.uuid == x.uuid then
        { x with hidden := true, modification_time := some now }
      else x) x).name = x.name := by
    intro x
    by_cases h : o.uuid = x.uuid <;> simp [h]
  -- the soft delete itself
  have hf1 := get_filter_singleton_list st.db.objects o true
    (db.nspace.isSome || db.nspace.isSome) db.nspace o.uuid rfl hmem hnd rfl
    (by simp [hns])
  have h1 : SQLAdapter.get_object_plain st.db Option.none
      (some [Ident.uuid o.uuid]) db.nspace Option.none Option.none
      Option.none Option.none true false db.nspace.isSome
      = Except.ok (.many [o]) := by
    simp only [SQLAdapter.get_object_plain]
    rw [hf1]
    rfl
  have hdel : BasicDB.delete db st (.one (.ident (.uuid o.uuid))) true now
      = ⟨.ok (), softDeleted o now st, 1⟩ := by
    simp [BasicDB.delete, SQLAdapter.delete_objects, h1, uuid_if_object,
      softDeleted]
  -- the hidden row and the state's invariants after the delete
  have ho1 : ({ o with hidden := true, modification_time := some now }
      : DBObject) ∈ (softDeleted o now st).db.objects := by
    have hm := List.mem_map_of_mem (fun x =>
      if o.uuid == x.uuid then
        { x with hidden := true, modification_time := some now }
      else x) hmem
    simpa [softDeleted] using hm
  have hnd1 : uuidNodup ((softDeleted o now st).db.objects.map
      (fun y => y.uuid)) = true := by
    simp only [softDeleted]
    exact uuidNodup_map _ _ hfpres hnd
  have hidx1 : objectIndexOk (softDeleted o now st).db.objects = true := by
    simp only [softDeleted]
    exact objectIndexOk_map _ _ hfpres3 hidx
  -- get without include_hidden sees nothing
  have hfC := get_filter_nil (softDeleted o now st).db.objects
    { o with hidden := true, modification_time := some now } false true
    db.nspace o.uuid rfl ho1 hnd1 rfl
  have hgetC : BasicDB.get db (softDeleted o now st) Option.none (some o.uuid)
      Option.none Option.none Option.none Option.none Option.none Option.none
      false Option.none Option.none Option.none false
      = ⟨.ok (.one Option.none), softDeleted o now st, 1⟩ := by
    simp [BasicDB.get, SQLAdapter.get_object, hfC, finishObjectQuery,
      convertObjResult]
  -- get with include_hidden sees exactly the hidden row
  have hfD := get_filter_singleton (softDeleted o now st).db.objects
    { o with hidden := true, modification_time := some now } true true
    db.nspace o.uuid rfl ho1 hnd1 rfl (by simp [hns])
  have hgetD : BasicDB.get db (softDeleted o now st) Option.none (some o.uuid)
      Option.none Option.none Option.none Option.none Option.none Option.none
      true Option.none Option.none Option.none false
      = ⟨.ok (.one (some ⟨o.uuid, o.nspace, o.name, o.type_, o.subtype,
          o.creation_time, some now, true, o.username, d⟩)),
          softDeleted o now st, 1⟩ := by
    simp [BasicDB.get, SQLAdapter.get_object, hfD, finishObjectQuery,
      convertObjResult, DBObject.to_public, hunp]
  -- clearing the hidden flag
  have hfE := get_filter_singleton (softDeleted o now st).db.objects
    { o with hidden := true, modification_time := some now } true
    (db.nspace.isSome || db.nspace.isSome) db.nspace o.uuid rfl ho1 hnd1 rfl
    (by simp [hns])
  have hgpres : ∀ x : DBObject,
      ((fun x => if x.uuid == o.uuid then applyObjectUpdate x unhideKwargs
        now2 else x) x).uuid = x.uuid
      ∧ ((fun x => if x.uuid == o.uuid then applyObjectUpdate x unhideKwargs
        now2 else x) x).nspace = x.nspace
      ∧ ((fun x => if x.uuid == o.uuid then applyObjectUpdate x unhideKwargs
        now2 else x) x).name = x.name := by
    intro x
    by_cases h : x.uuid = o.uuid <;>
      simp [h, applyObjectUpdate, unhideKwargs]
  have hidx2 : objectIndexOk ((softDeleted o now st).db.objects.map (fun x =>
      if x.uuid == o.uuid then applyObjectUpdate x unhideKwargs now2
      else x)) = true :=
    objectIndexOk_map _ _ hgpres hidx1
  have hupd : BasicDB.update db (softDeleted o now st)
      (.ident (.uuid o.uuid))
      ⟨Option.none, Option.none, Option.none, Option.none, some false,
        Option.none, Option.none⟩ now2
      = ⟨.ok (), unhiddenAt o.uuid now2 (softDeleted o now st), 1⟩ := by
    have hres : SQLAdapter.get_object_from_identifier
        (softDeleted o now st).db (.uuid o.uuid) db.nspace.isSome db.nspace
        true true = Except.ok (some ⟨o.uuid, o.nspace, o.name, o.type_,
          o.subtype, o.creation_time, some now, true, o.username,
          o.extra_data⟩) := by
      simp only [SQLAdapter.get_object_from_identifier,
        SQLAdapter.get_object_plain]
      rw [hfE]
      rfl
    have hidx2' := hidx2
    simp only [beq_iff_eq, unhideKwargs] at hidx2'
    simp [BasicDB.update, SQLAdapter.update_object, hres, uuid_if_object,
      unhiddenAt, unhideKwargs, hidx2, hidx2']
  -- default visibility is restored
  have hnd2 : uuidNodup ((unhiddenAt o.uuid now2
      (softDeleted o now st)).db.objects.map (fun y => y.uuid)) = true := by
    simp only [unhiddenAt]
    exact uuidNodup_map _ _ (fun x => (hgpres x).1) hnd1
  have ho2 : (⟨o.uuid, o.nspace, o.name, o.type_, o.subtype, o.creation_time,
      some now2, false, o.username, o.extra_data⟩ : DBObject)
      ∈ (unhiddenAt o.uuid now2 (softDeleted o now st)).db.objects := by
    have hm := List.mem_map_of_mem (fun x =>
      if x.uuid == o.uuid then applyObjectUpdate x unhideKwargs now2 else x)
      ho1
    simpa [unhiddenAt, applyObjectUpdate, unhideKwargs] using hm
  have hfF := get_filter_singleton
    (unhiddenAt o.uuid now2 (softDeleted o now st)).db.objects
    ⟨o.uuid, o.nspace, o.name, o.type_, o.subtype, o.creation_time,
      some now2, false, o.username, o.extra_data⟩ false true db.nspace o.uuid
    rfl ho2 hnd2 rfl (by simp [hns])
  have hgetF : BasicDB.get db (unhiddenAt o.uuid now2 (softDeleted o now st))
      Option.none (some o.uuid) Option.none Option.none Option.none
      Option.none Option.none Option.none false Option.none Option.none
      Option.none false
      = ⟨.ok (.one (some ⟨o.uuid, o.nspace, o.name, o.type_, o.subtype,
          o.creation_time, some now2, false, o.username, d⟩)),
          unhiddenAt o.uuid now2 (softDeleted o now st), 1⟩ := by
    simp [BasicDB.get, SQLAdapter.get_object, hfF, finishObjectQuery,
      convertObjResult, DBObject.to_public, hunp]
  exact ⟨hdel, ho1, hgetC, hgetD, hupd, hgetF⟩

theorem soft_delete_visibility_witness :
    BasicDB.delete store0 stC9 (.one (.ident (.uuid obj1.uuid))) true 5
      = ⟨.ok (), softDeleted obj1 5 stC9, 1⟩
  ∧ { obj1 with hidden := true, modification_time := some 5 }
      ∈ (softDeleted obj1 5 stC9).db.objects
  ∧ BasicDB.get store0 (softDeleted obj1 5 stC9) Option.none
      (some obj1.uuid) Option.none Option.none Option.none Option.none
      Option.none Option.none false Option.none Option.none Option.none false
    = ⟨.ok (.one Option.none), softDeleted obj1 5 stC9, 1⟩
  ∧ BasicDB.get store0 (softDeleted obj1 5 stC9) Option.none
      (some obj1.uuid) Option.none Option.none Option.none Option.none
      Option.none Option.none true Option.none Option.none Option.none false
    = ⟨.ok (.one (some ⟨obj1.uuid, obj1.nspace, obj1.name, obj1.type_,
        obj1.subtype, obj1.creation_time, some 5, true, obj1.username,
        .dict .nil⟩)), softDeleted obj1 5 stC9, 1⟩
  ∧ BasicDB.update store0 (softDeleted obj1 5 stC9) (.ident (.uuid obj1.uuid))
      ⟨Option.none, Option.none, Option.none, Option.none, some false,
        Option.none, Option.none⟩ 6
    = ⟨.ok (), unhiddenAt obj1.uuid 6 (softDeleted obj1 5 stC9), 1⟩
  ∧ BasicDB.get store0 (unhiddenAt obj1.uuid 6 (softDeleted obj1 5 stC9))
      Option.none (some obj1.uuid) Option.none Option.none Option.none
      Option.none Option.none Option.none false Option.none Option.none
      Option.none false
    = ⟨.ok (.one (some ⟨obj1.uuid, obj1.nspace, obj1.name, obj1.type_,
        obj1.subtype, obj1.creation_time, some 6, false, obj1.username,
        .dict .nil⟩)), unhiddenAt obj1.uuid 6 (softDeleted obj1 5 stC9), 1⟩ :=
  soft_delete_visibility store0 stC9 obj1 (.dict .nil) 5 6
    (List.mem_singleton.mpr rfl) rfl rfl rfl rfl

/-- The result set that the relationship-filter description ascribes to a
get with rel_first (firstGiven = true) or rel_second (firstGiven = false):
the objects, passing the other filters, whose uuid is the opposite endpoint
of some relationship matching the filter — its given endpoint is the
resolved argument, its type matches rel_type — that is visible under the
call's include_hidden setting.  (This definition follows that wording, for
comparison with the implementation.) -/
def relQueryClaimSet (stdb : DBState) (include_hidden : Bool)
    (rel_type : Option StrOrList) (endpoint : UUID) (firstGiven : Bool)
    (otherFilters : DBObject → Bool) : List DBObject :=
  stdb.objects.filter (fun o =>
    otherFilters o
    && stdb.relationships.any (fun r =>
        (((include_hidden || r.hidden == false) && relTypePred rel_type r)
          && (if firstGiven then r.first else r.second) == endpoint)
        && (if firstGiven then r.second else r.first) == o.uuid))

/-- Membership in the eraseDups accumulator loop: an element of the result
comes from the remaining input or the accumulator. -/
lemma mem_eraseDups_loop (as bs : List UUID) (a : UUID) :
    a ∈ List.eraseDups.loop as bs ↔ a ∈ as ∨ a ∈ bs := by
  induction as generalizing bs with
  | nil => simp [List.eraseDups.loop]
  | cons x xs ih =>
    simp only [List.eraseDups.loop]
    cases hx : bs.elem x with
    | true =>
        have hxb : x ∈ bs := List.elem_iff.mp hx
        rw [ih]
        simp only [List.mem_cons]
        constructor
        · tauto
        · rintro ((h | h) | h)
          · exact Or.inr (h ▸ hxb)
          · exact Or.inl h
          · exact Or.inr h
    | false =>
        rw [ih]
        simp only [List.mem_cons]
        tauto

/-- list(set(...)) keeps exactly the members: contains is unchanged by
eraseDups. -/
lemma contains_eraseDups (l : List UUID) (a : UUID) :
    l.eraseDups.contains a = l.contains a := by
  rw [Bool.eq_iff_iff]
  simp only [List.contains, List.elem_iff, List.eraseDups]
  rw [mem_eraseDups_loop]
  simp

/-- Containment in a mapped list of endpoints, as an existential scan of the
relationships. -/
lemma contains_map_any (l : List DBRelationship) (f : DBRelationship → UUID)
    (a : UUID) : (l.map f).contains a = l.any (fun x => f x == a) := by
  rw [Bool.eq_iff_iff]
  simp [List.contains, List.elem_iff, List.any_eq_true]

/-- The relationship-endpoint uuid filter of objPred splits off as one extra
containment conjunct. -/
lemma objPred_rel_split (ih : Bool) (u : Option UUID)
    (us : Option (List Ident)) (n : Option String) (ns : Option (List String))
    (nsF : Bool) (nsv t s : Option String) (L : List UUID) (o : DBObject) :
    objPred ih u us n ns nsF nsv t s (some L) o
      = (objPred ih u us n ns nsF nsv t s Option.none o
          && L.contains o.uuid) := by
  simp [objPred, Bool.and_assoc]

/-- The rel_first branch of SQLAdapter.get_object, given that the endpoint
identifier resolves: the result is the claim set around the resolved uuid.
-/
lemma get_object_rel_first_eq (st : DBState) (fi : Ident) (fo : DBObject)
    (uuids : Option (List Ident)) (nspace : Option String)
    (names : Option (List String)) (type_ subtype : Option String)
    (rel_type : Option StrOrList) (ih : Bool)
    (hres : SQLAdapter.get_object_from_identifier st fi false nspace ih false
      = .ok (some fo)) :
    SQLAdapter.get_object st Option.none uuids nspace Option.none names type_
        subtype ih (some fi) Option.none rel_type false true
      = .ok (.many (relQueryClaimSet st ih rel_type fo.uuid true
          (objPred ih Option.none uuids Option.none names true nspace type_
            subtype Option.none))) := by
  have hrels : SQLAdapter.get_relationships st Option.none Option.none
      (some fi) Option.none rel_type nspace false ih false
      = .ok (.many (st.relationships.filter (fun r =>
          ((ih || r.hidden == false) && relTypePred rel_type r)
            && r.first == fo.uuid))) := by
    rw [SQLAdapter.get_relationships]
    simp only [hres]
    simp
  rw [SQLAdapter.get_object]
  simp [hrels, finishObjectQuery]
  simp only [relQueryClaimSet]
  apply List.filter_congr
  intro o ho
  rw [objPred_rel_split, contains_eraseDups, contains_map_any,
    List.any_filter]
  simp [Bool.and_assoc]

/-- The rel_second branch of SQLAdapter.get_object, given that the endpoint
identifier resolves: the result is the claim set around the resolved uuid,
collecting first endpoints. -/
lemma get_object_rel_second_eq (st : DBState) (se : Ident) (so : DBObject)
    (uuids : Option (List Ident)) (nspace : Option String)
    (names : Option (List String)) (type_ subtype : Option String)
    (rel_type : Option StrOrList) (ih : Bool)
    (hres : SQLAdapter.get_object_from_identifier st se false nspace ih false
      = .ok (some so)) :
    SQLAdapter.get_object st Option.none uuids nspace Option.none names type_
        subtype ih Option.none (some se) rel_type false true
      = .ok (.many (relQueryClaimSet st ih rel_type so.uuid false
          (objPred ih Option.none uuids Option.none names true nspace type_
            subtype Option.none))) := by
  have hrels : SQLAdapter.get_relationships st Option.none Option.none
      Option.none (some se) rel_type nspace false ih false
      = .ok (.many (st.relationships.filter (fun r =>
          ((ih || r.hidden == false) && relTypePred rel_type r)
            && r.second == so.uuid))) := by
    rw [SQLAdapter.get_relationships]
    simp only [hres]
    simp
  rw [SQLAdapter.get_object]
  simp [hrels, finishObjectQuery]
  simp only [relQueryClaimSet]
  apply List.filter_congr
  intro o ho
  rw [objPred_rel_split, contains_eraseDups, contains_map_any,
    List.any_filter]
  simp [Bool.and_assoc]

/-- A hidden object (uuid 1), endpoint of a visible relationship. -/
def objH : DBObject :=
  ⟨1, Option.none, "h", Option.none, Option.none, 0, Option.none, true,
    some ("alice"), .map .nil⟩

/-- A visible object (uuid 2), second endpoint of relHV and first endpoint
of relVW. -/
def objV : DBObject :=
  ⟨2, Option.none, "v", Option.none, Option.none, 0, Option.none, false,
    some ("alice"), .map .nil⟩

/-- A visible object (uuid 3), second endpoint of relVW. -/
def objW : DBObject :=
  ⟨3, Option.none, "w", Option.none, Option.none, 0, Option.none, false,
    some ("alice"), .map .nil⟩

/-- A visible relationship from the hidden objH to the visible objV. -/
def relHV : DBRelationship := ⟨10, 1, 2, some ("likes"), false⟩

/-- A visible relationship from objV to objW. -/
def relVW : DBRelationship := ⟨11, 2, 3, some ("likes"), false⟩

/-- A state with the three objects and two relationships above. -/
def stC7 : FullState := ⟨⟨[objH, objV, objW], [], [relHV, relVW], 100⟩, []⟩

/-- C7 counterexample: a get with rel_first naming the hidden object 1
returns no objects, although the visible relationship relHV has first
endpoint 1 and the visible object objV (uuid 2) as second endpoint — the
claimed result set is [objV].  The implementation resolves the rel_first
argument itself under include_hidden before looking at relationships, so a
hidden endpoint empties the result. -/
theorem rel_query_hidden_endpoint_counterexample :
    BasicDB.get store0 stC7 Option.none Option.none Option.none Option.none
        Option.none Option.none Option.none Option.none false
        (some (.ident (.uuid 1))) Option.none Option.none false
      = ⟨.ok (.many []), stC7, 1⟩
    ∧ relQueryClaimSet stC7.db false Option.none 1 true
        (objPred false Option.none Option.none Option.none Option.none true
          Option.none Option.none Option.none Option.none) = [objV] :=
  ⟨rfl, rfl⟩

/-- C7 (amended): for a get with a rel_first (respectively rel_second)
filter and optional rel_type, provided the endpoint argument resolves to an
object fo under the call's namespace and include_hidden settings, the result
is exactly the objects, passing the other filters, whose uuid is the second
(respectively first) endpoint of some relationship matching the filter —
first (respectively second) endpoint fo, type matching rel_type — that is
visible under the call's include_hidden setting (converted to public
entities by the code's row conversion, with the state untouched and one
adapter call). -/
theorem rel_filtered_get (db : BasicDB) (st : FullState) (a : ObjArg)
    (fo : DBObject) (uuids : Option (List Ident))
    (names : Option (List String)) (type_ subtype : Option String)
    (rel_type : Option StrOrList) (ih : Bool)
    (hty : (subtype.isSome && type_.isNone) = false)
    (hres : SQLAdapter.get_object_from_identifier st.db (uuid_if_object a)
        false db.nspace ih false = .ok (some fo)) :
    BasicDB.get db st Option.none Option.none uuids Option.none Option.none
        names type_ subtype ih (some a) Option.none rel_type false
      = ⟨convertObjResult (.many (relQueryClaimSet st.db ih rel_type fo.uuid
            true (objPred ih Option.none uuids Option.none names true
              db.nspace type_ subtype Option.none))), st, 1⟩
    ∧ BasicDB.get db st Option.none Option.none uuids Option.none Option.none
        names type_ subtype ih Option.none (some a) rel_type false
      = ⟨convertObjResult (.many (relQueryClaimSet st.db ih rel_type fo.uuid
            false (objPred ih Option.none uuids Option.none names true
              db.nspace type_ subtype Option.none))), st, 1⟩ := by
  constructor
  · have h1 := get_object_rel_first_eq st.db (uuid_if_object a) fo uuids
      db.nspace names type_ subtype rel_type ih hres
    rw [BasicDB.get]
    simp only [hty]
    simp only [Option.map_some', Option.map_none', Option.isSome_some,
      Option.isSome_none, Bool.false_and, Bool.and_false, Bool.false_or,
      Bool.or_false, Bool.and_self, Bool.true_and, Bool.and_true,
      Bool.false_eq_true, if_false]
    rw [h1]
    cases hc : convertObjResult (.many (relQueryClaimSet st.db ih rel_type
        fo.uuid true (objPred ih Option.none uuids Option.none names true
          db.nspace type_ subtype Option.none))) with
    | ok pr => simp [hc]
    | error e => simp [hc]
  · have h2 := get_object_rel_second_eq st.db (uuid_if_object a) fo uuids
      db.nspace names type_ subtype rel_type ih hres
    rw [BasicDB.get]
    simp only [hty]
    simp only [Option.map_some', Option.map_none', Option.isSome_some,
      Option.isSome_none, Bool.false_and, Bool.and_false, Bool.false_or,
      Bool.or_false, Bool.and_self, Bool.true_and, Bool.and_true,
      Bool.false_eq_true, if_false]
    rw [h2]
    cases hc : convertObjResult (.many (relQueryClaimSet st.db ih rel_type
        fo.uuid false (objPred ih Option.none uuids Option.none names true
          db.nspace type_ subtype Option.none))) with
    | ok pr => simp [hc]
    | error e => simp [hc]

theorem rel_filtered_get_witness :
    (((Option.none : Option String).isSome
        && (Option.none : Option String).isNone) = false)
  ∧ SQLAdapter.get_object_from_identifier stC7.db
      (uuid_if_object (.ident (.uuid 2))) false store0.nspace false false
      = .ok (some objV)
  ∧ (BasicDB.get store0 stC7 Option.none Option.none Option.none Option.none
        Option.none Option.none Option.none Option.none false
        (some (.ident (.uuid 2))) Option.none (some (.one ("likes"))) false
      = ⟨convertObjResult (.many (relQueryClaimSet stC7.db false
            (some (.one ("likes"))) objV.uuid true (objPred false Option.none
              Option.none Option.none Option.none true store0.nspace
              Option.none Option.none Option.none))), stC7, 1⟩
    ∧ BasicDB.get store0 stC7 Option.none Option.none Option.none Option.none
        Option.none Option.none Option.none Option.none false Option.none
        (some (.ident (.uuid 2))) (some (.one ("likes"))) false
      = ⟨convertObjResult (.many (relQueryClaimSet stC7.db false
            (some (.one ("likes"))) objV.uuid false (objPred false
              Option.none Option.none Option.none Option.none true
              store0.nspace Option.none Option.none Option.none))), stC7,
          1⟩) :=
  ⟨rfl, rfl, rel_filtered_get store0 stC7 (.ident (.uuid 2)) objV Option.none
    Option.none Option.none Option.none (some (.one ("likes"))) false rfl
    rfl⟩
